import Mathlib

/-!
Verification development for the polkadot-x402 payment facilitator.

The repository contains two parallel implementations of the x402 protocol
engine: a Next.js application (src/middleware.ts, src/lib/evm/networks.ts,
src/lib/x402/settle.ts) and a standalone SDK (src/sdk/src).  This file embeds
the payment codec, the network registries, the SDK verifier, both settlers and
the gateway middleware as executable Lean functions, and proves the protocol
properties stated about them.

Modelling conventions:
  * JavaScript strings are Lean `String`s; byte arrays are `List Nat` with
    every entry below 256.
  * JavaScript exceptions are modelled with `Except String`; a `try/catch`
    becomes a `match` on the `Except` value.
  * Chain and RPC interactions (balances, broadcast, receipts) are oracle
    functions packaged in environment records; the settlement embeddings also
    return the list of broadcast requests they issued, so that properties of
    the form "no transaction is broadcast" are statable.
  * `BigInt(string)` is modelled for decimal inputs (`parseBigInt`); the
    hexadecimal/octal/binary literal forms accepted by JavaScript are not
    used by this code base.
-/

deriving instance DecidableEq for Except

namespace X402

/-- Left brace character, written numerically. -/
def lbrace : Char := Char.ofNat 123

/-- Right brace character, written numerically. -/
def rbrace : Char := Char.ofNat 125

/-- Single-quote character, used to rebuild source message strings. -/
def sq : String := String.singleton (Char.ofNat 39)

/-- JavaScript string truthiness: `undefined` and the empty string are falsy. -/
def truthy : Option String → Bool
  | some s => s ≠ ""
  | none => false

/-- JavaScript `a || b` on optional strings. -/
def jsOr (a : Option String) (b : String) : String :=
  match a with
  | some s => if s = "" then b else s
  | none => b

/-- JavaScript `a || b` where the fallback may itself be absent. -/
def jsOrOpt (a b : Option String) : Option String :=
  match a with
  | some s => if s = "" then b else some s
  | none => b

/-- JavaScript `n || d` on an optional number: `undefined` and `0` are falsy. -/
def jsOrNum (a : Option Int) (d : Int) : Int :=
  match a with
  | some v => if v = 0 then d else v
  | none => d

/-- Model of JavaScript `toLowerCase` (ASCII case folding, as used on hex
addresses and network identifiers). -/
def toLowerStr (s : String) : String := String.mk (s.data.map Char.toLower)

/-- Whitespace characters trimmed by JavaScript `BigInt(string)` (the common
ASCII ones). -/
def isJsSpace (c : Char) : Bool := c = ' ' || c = '\n' || c = '\t' || c = '\r'

/-- Model of string trimming. -/
def trimStr (s : String) : String :=
  String.mk (((s.data.dropWhile isJsSpace).reverse.dropWhile isJsSpace).reverse)

/-- Model of `String.prototype.startsWith`. -/
def startsWithStr (s pre : String) : Bool := pre.data.isPrefixOf s.data

/-- Decimal digit characters, by character code. -/
def decChars : List Char := (List.range 10).map (fun i => Char.ofNat (48 + i))

/-- Digit character for a value below ten. -/
def digitChar (d : Nat) : Char := decChars.getD d '0'

/-- Fuelled decimal rendering loop (the fuel strictly bounds the value, so
`n + 1` is always enough). -/
def natToDecimalAux : Nat → Nat → List Char
  | 0, _ => []
  | fuel + 1, n =>
      if n < 10 then [digitChar n]
      else natToDecimalAux fuel (n / 10) ++ [digitChar (n % 10)]

/-- Decimal rendering of a natural number (the digit stream produced by
`JSON.stringify` and by `toString` on a nonnegative integer). -/
def natToDecimal (n : Nat) : List Char := natToDecimalAux (n + 1) n

/-- Decimal rendering of an integer. -/
def intToDecimal (i : Int) : List Char :=
  if i < 0 then '-' :: natToDecimal i.natAbs else natToDecimal i.natAbs

/-- Numeric value of a digit character. -/
def digitVal (c : Char) : Nat := c.toNat - 48

/-- Greedy digit-run parser: consumes leading digits, accumulating the value. -/
def parseDigitsAux (acc : Nat) : List Char → Nat × List Char
  | [] => (acc, [])
  | c :: cs =>
      if c.isDigit then parseDigitsAux (acc * 10 + digitVal c) cs
      else (acc, c :: cs)

/-- Parser for a decimal natural number: requires at least one leading digit. -/
def parseNatNum : List Char → Option (Nat × List Char)
  | [] => none
  | c :: cs =>
      if c.isDigit then some (parseDigitsAux 0 (c :: cs)) else none

/-- Values of all-digit character lists, `none` on a non-digit. -/
def digitsVal? (cs : List Char) : Option Nat :=
  cs.foldl
    (fun acc c =>
      match acc with
      | some n => if c.isDigit then some (n * 10 + digitVal c) else none
      | none => none)
    (some 0)

/-- Model of JavaScript `BigInt(string)` on decimal inputs: surrounding
whitespace is trimmed, the empty string denotes zero, an optional single sign
precedes a nonempty digit run, and anything else throws (here: `none`). -/
def parseBigInt (s : String) : Option Int :=
  let t := trimStr s
  if t = "" then some 0
  else
    match t.data with
    | '-' :: rest =>
        if rest = [] then none
        else (digitsVal? rest).map (fun n => -(n : Int))
    | '+' :: rest =>
        if rest = [] then none
        else (digitsVal? rest).map (fun n => (n : Int))
    | cs => (digitsVal? cs).map (fun n => (n : Int))

/-- Hexadecimal digit characters, lowercase (as produced by `u8aToHex`), by
character code. -/
def hexChars : List Char :=
  decChars ++ (List.range 6).map (fun i => Char.ofNat (97 + i))

/-- Hex digit character for a value below sixteen. -/
def hexDigitChar (d : Nat) : Char := hexChars.getD d '0'

/-- Value of a hex digit character, `none` for a non-hex character. -/
def hexVal? (c : Char) : Option Nat :=
  if '0' ≤ c ∧ c ≤ '9' then some (c.toNat - 48)
  else if 'a' ≤ c ∧ c ≤ 'f' then some (c.toNat - 87)
  else if 'A' ≤ c ∧ c ≤ 'F' then some (c.toNat - 55)
  else none

/-- Two lowercase hex characters for one byte. -/
def byteHexChars (b : Nat) : List Char :=
  [hexDigitChar (b / 16 % 16), hexDigitChar (b % 16)]

/-- Model of `u8aToHex`: a `0x`-prefixed lowercase hex rendering of bytes. -/
def hexEncodeBytes (bs : List Nat) : String :=
  String.mk ('0' :: 'x' :: bs.flatMap byteHexChars)

/-- One nibble of the `hexToU8a` lookup table: hex digit characters (either
case) map to their value, every other character contributes zero. -/
def hexNibble (c : Char) : Nat := (hexVal? c).getD 0

/-- Pairwise byte assembly of `hexToU8a`: characters are consumed two at a
time through the nibble table; a trailing lone character supplies the high
nibble of a final byte (its pair partner reads past the end of the input). -/
def hexPairBytes : List Char → List Nat
  | [] => []
  | [c] => [16 * hexNibble c]
  | c1 :: c2 :: cs => (16 * hexNibble c1 + hexNibble c2) :: hexPairBytes cs

/-- Character-level body of `hexToU8a`: an optional `0x` prefix is skipped,
the rest is read through the nibble table. -/
def hexToU8aChars : List Char → List Nat
  | '0' :: 'x' :: rest => hexPairBytes rest
  | cs => hexPairBytes cs

/-- Model of `hexToU8a`: prefixed or unprefixed hex input is accepted, the
empty string gives no bytes, and the function never throws — characters
outside the nibble table simply contribute zero nibbles. -/
def hexToU8a (s : String) : List Nat := hexToU8aChars s.data

/-- UTF-8 encoding of one character (the byte stream of `TextEncoder`). -/
def charUtf8 (c : Char) : List Nat :=
  let n := c.toNat
  if n < 128 then [n]
  else if n < 2048 then [192 + n / 64, 128 + n % 64]
  else if n < 65536 then [224 + n / 4096, 128 + n / 64 % 64, 128 + n % 64]
  else [240 + n / 262144, 128 + n / 4096 % 64, 128 + n / 64 % 64, 128 + n % 64]

/-- UTF-8 encoding of a string. -/
def utf8Encode (s : String) : List Nat := s.data.flatMap charUtf8

/-- Continuation-byte test. -/
def isCont (b : Nat) : Bool := 128 ≤ b ∧ b < 192

/-- Decoding of one UTF-8 codepoint: the leading byte and the remaining
stream, giving the character and the rest; `none` on a malformed sequence. -/
def utf8DecodeOne (b : Nat) (bs : List Nat) : Option (Char × List Nat) :=
  if b < 128 then some (Char.ofNat b, bs)
  else if b < 192 then none
  else if b < 224 then
    match bs with
    | b2 :: bs2 =>
        if isCont b2 then some (Char.ofNat ((b - 192) * 64 + (b2 - 128)), bs2) else none
    | _ => none
  else if b < 240 then
    match bs with
    | b2 :: b3 :: bs3 =>
        if isCont b2 ∧ isCont b3 then
          some (Char.ofNat ((b - 224) * 4096 + (b2 - 128) * 64 + (b3 - 128)), bs3)
        else none
    | _ => none
  else
    match bs with
    | b2 :: b3 :: b4 :: bs4 =>
        if isCont b2 ∧ isCont b3 ∧ isCont b4 then
          some
            (Char.ofNat ((b - 240) * 262144 + (b2 - 128) * 4096 + (b3 - 128) * 64 + (b4 - 128)),
              bs4)
        else none
    | _ => none

/-- Fuelled UTF-8 decoding loop; the fuel only bounds the number of decoded
characters (one byte at least per character, so the stream length is enough
fuel). -/
def utf8DecodeFuel : Nat → List Nat → Option (List Char)
  | _, [] => some []
  | 0, _ :: _ => none
  | fuel + 1, b :: bs =>
      match utf8DecodeOne b bs with
      | some (c, rest) => (utf8DecodeFuel fuel rest).map (fun cs => c :: cs)
      | none => none

/-- Strict UTF-8 decoding of a byte stream; `none` on a malformed sequence.
Models `TextDecoder` for well-formed inputs (the decoder in the runtime
substitutes replacement characters instead of failing, after which the
JSON parse of the mangled text fails; both roads end in the same `null`). -/
def utf8Decode (bs : List Nat) : Option (List Char) := utf8DecodeFuel bs.length bs

/-- Base64 alphabet, by character code. -/
def b64Chars : List Char :=
  (List.range 26).map (fun i => Char.ofNat (65 + i)) ++
    (List.range 26).map (fun i => Char.ofNat (97 + i)) ++ decChars ++ ['+', '/']

/-- Base64 character for a six-bit value. -/
def b64Char (d : Nat) : Char := b64Chars.getD d 'A'

/-- Base64 encoding of bytes (model of `Buffer.toString` with base64). -/
def base64EncodeBytes : List Nat → List Char
  | b1 :: b2 :: b3 :: rest =>
      b64Char (b1 / 4) :: b64Char (b1 % 4 * 16 + b2 / 16) ::
        b64Char (b2 % 16 * 4 + b3 / 64) :: b64Char (b3 % 64) :: base64EncodeBytes rest
  | [b1, b2] =>
      [b64Char (b1 / 4), b64Char (b1 % 4 * 16 + b2 / 16), b64Char (b2 % 16 * 4), '=']
  | [b1] => [b64Char (b1 / 4), b64Char (b1 % 4 * 16), '=', '=']
  | [] => []

/-- Index of a base64 character, `none` for characters outside the alphabet. -/
def b64Val? (c : Char) : Option Nat := b64Chars.findIdx? (fun x => x = c)

/-- Sextet groups back to bytes; a trailing group of one sextet is dropped
(as `Buffer.from` does). -/
def b64Regroup : List Nat → List Nat
  | d1 :: d2 :: d3 :: d4 :: rest =>
      (d1 * 4 + d2 / 16) :: (d2 % 16 * 16 + d3 / 4) :: (d3 % 4 * 64 + d4) :: b64Regroup rest
  | [d1, d2, d3] => [d1 * 4 + d2 / 16, d2 % 16 * 16 + d3 / 4]
  | [d1, d2] => [d1 * 4 + d2 / 16]
  | [_] => []
  | [] => []

/-- Model of `Buffer.from(s, base64)`: characters outside the alphabet
(including padding) are ignored, then sextets are regrouped into bytes.
This call never throws in JavaScript. -/
def base64DecodeBytes (s : String) : List Nat :=
  b64Regroup (s.data.filterMap b64Val?)

/-- Model of `Buffer.prototype.toString` with UTF-8: the runtime decodes
lossily (replacement characters, never an exception).  This model is exact on
well-formed UTF-8 and otherwise yields a replacement character, which is not
valid JSON either way. -/
def bufferToStringUtf8 (bs : List Nat) : String :=
  match utf8Decode bs with
  | some cs => String.mk cs
  | none => String.singleton (Char.ofNat 65533)

/-! ## JSON building blocks

`JSON.stringify` on the object literals of the code base emits the fields in
their source order with no whitespace.  The parsers below model `JSON.parse`
specialized to the exact object shapes this code produces and consumes; any
other input is a parse failure (in JavaScript such a failure is an exception,
caught by the surrounding `try`). -/

/-- Escaping of one character inside a JSON string literal, as performed by
`JSON.stringify` (sub-0x20 characters other than the three named ones use a
unicode escape; they do not occur in the values of this protocol). -/
def escapeChar (c : Char) : List Char :=
  if c = '"' then ['\\', '"']
  else if c = '\\' then ['\\', '\\']
  else if c = '\n' then ['\\', 'n']
  else if c = '\r' then ['\\', 'r']
  else if c = '\t' then ['\\', 't']
  else [c]

/-- JSON string literal for a value, quotes included. -/
def jsonQuote (s : String) : List Char :=
  '"' :: s.data.flatMap escapeChar ++ ['"']

/-- Prefix of a JSON object member: the quoted key and the colon. -/
def keyLit (k : String) : List Char :=
  '"' :: k.data ++ ['"', ':']

/-- Consume an exact literal character sequence. -/
def dropLit : List Char → List Char → Option (List Char)
  | [], cs => some cs
  | _ :: _, [] => none
  | l :: ls, c :: cs => if c = l then dropLit ls cs else none

/-- Unescaped character of a JSON escape code, `none` for an unknown escape
(the unicode escape form does not occur in the values of this protocol). -/
def unescapeChar (e : Char) : Option Char :=
  if e = '"' then some '"'
  else if e = '\\' then some '\\'
  else if e = 'n' then some '\n'
  else if e = 'r' then some '\r'
  else if e = 't' then some '\t'
  else none

/-- Read a JSON string body after the opening quote, undoing the escapes of
`escapeChar`; raw control characters or unknown escapes are rejected, as
`JSON.parse` rejects them. -/
def readStr : List Char → Option (List Char × List Char)
  | [] => none
  | c :: cs =>
      if c = '"' then some ([], cs)
      else if c = '\\' then
        match cs with
        | [] => none
        | e :: cs2 =>
            match unescapeChar e with
            | some u => (readStr cs2).map (fun p => (u :: p.1, p.2))
            | none => none
      else if c.toNat < 32 then none
      else (readStr cs).map (fun p => (c :: p.1, p.2))

/-- Consume a quoted JSON object member whose value is a string:
the key literal, then the quoted value. -/
def parseStrField (k : String) (cs : List Char) : Option (String × List Char) :=
  match dropLit (keyLit k) cs with
  | none => none
  | some cs1 =>
      match dropLit ['"'] cs1 with
      | none => none
      | some cs2 => (readStr cs2).map (fun p => (String.mk p.1, p.2))

/-- Consume a comma. -/
def dropComma (cs : List Char) : Option (List Char) := dropLit [','] cs

/-! ## Payment codec (src/sdk/src/utils/crypto.ts) -/

/-- Decoded payment payload: the authorization a buyer signs.  The source
field names `from` and `to` are Lean keywords and appear here as `fromAddr`
and `toAddr`. -/
structure PaymentPayload where
  fromAddr : String
  toAddr : String
  amount : String
  nonce : String
  timestamp : Nat
  signature : String
deriving DecidableEq, Repr

/-- Character stream of `JSON.stringify` on a payment payload, fields in
declaration order. -/
def payloadJsonChars (p : PaymentPayload) : List Char :=
  [lbrace] ++
    keyLit "from" ++ jsonQuote p.fromAddr ++ [','] ++
    keyLit "to" ++ jsonQuote p.toAddr ++ [','] ++
    keyLit "amount" ++ jsonQuote p.amount ++ [','] ++
    keyLit "nonce" ++ jsonQuote p.nonce ++ [','] ++
    keyLit "timestamp" ++ natToDecimal p.timestamp ++ [','] ++
    keyLit "signature" ++ jsonQuote p.signature ++
  [rbrace]

/-- Model of `encodePaymentPayload`: `u8aToHex` of the UTF-8 bytes of the
JSON rendering of the payload. -/
def encodePaymentPayload (p : PaymentPayload) : String :=
  hexEncodeBytes (utf8Encode (String.mk (payloadJsonChars p)))

/-- Model of `JSON.parse` specialized to the payload object shape produced by
`encodePaymentPayload` (the six fields in order, a numeric timestamp). -/
def parsePaymentJson (cs : List Char) : Option PaymentPayload :=
  match dropLit [lbrace] cs with
  | none => none
  | some cs0 =>
  match parseStrField "from" cs0 with
  | none => none
  | some (f, cs1) =>
  match dropComma cs1 with
  | none => none
  | some cs1b =>
  match parseStrField "to" cs1b with
  | none => none
  | some (t, cs2) =>
  match dropComma cs2 with
  | none => none
  | some cs2b =>
  match parseStrField "amount" cs2b with
  | none => none
  | some (a, cs3) =>
  match dropComma cs3 with
  | none => none
  | some cs3b =>
  match parseStrField "nonce" cs3b with
  | none => none
  | some (n, cs4) =>
  match dropComma cs4 with
  | none => none
  | some cs4b =>
  match dropLit (keyLit "timestamp") cs4b with
  | none => none
  | some cs5 =>
  match parseNatNum cs5 with
  | none => none
  | some (ts, cs5b) =>
  match dropComma cs5b with
  | none => none
  | some cs6 =>
  match parseStrField "signature" cs6 with
  | none => none
  | some (sg, cs7) =>
  match dropLit [rbrace] cs7 with
  | none => none
  | some cs8 =>
      if cs8 = [] then
        some { fromAddr := f, toAddr := t, amount := a, nonce := n,
               timestamp := ts, signature := sg }
      else none

/-- The `try`-block body of `decodePaymentPayload`: each step that throws in
JavaScript is an `Except.error` here. -/
def decodePaymentPayloadT (payloadHex : String) : Except String PaymentPayload :=
  match utf8Decode (hexToU8a payloadHex) with
  | none => Except.error "TextDecoder: invalid UTF-8 input"
  | some cs =>
      match parsePaymentJson cs with
      | none => Except.error "JSON.parse: unexpected token"
      | some p => Except.ok p

/-- Model of `decodePaymentPayload`: the `try/catch` turns every decode
failure into `null` (here `none`). -/
def decodePaymentPayload (payloadHex : String) : Option PaymentPayload :=
  match decodePaymentPayloadT payloadHex with
  | Except.ok p => some p
  | Except.error _ => none

/-- Canonical structured message of `createPaymentHash` (the EIP-712-style
typed-data record whose JSON bytes are signed): the payload fields together
with the domain-binding network identifier and the resource.  The source
serializes this record to JSON bytes; signature oracles in this file consume
the record itself. -/
structure PaymentHashMsg where
  fromAddr : String
  toAddr : String
  amount : String
  nonce : String
  timestamp : Int
  network : String
  resource : String
deriving DecidableEq, Repr

/-- Model of `createPaymentHash`: builds the domain-bound structured message;
the resource defaults to the empty string. -/
def createPaymentHash (fromAddr toAddr amount nonce : String) (timestamp : Int)
    (network : String) (resource : Option String) : PaymentHashMsg :=
  { fromAddr := fromAddr, toAddr := toAddr, amount := amount, nonce := nonce,
    timestamp := timestamp, network := network, resource := jsOr resource "" }

/-! ## Network registries -/

/-- Rendering of an optional string inside a template literal: JavaScript
prints `undefined` for an absent value. -/
def showOpt : Option String → String
  | some s => s
  | none => "undefined"

namespace Evm

/-- Network configuration of the application registry
(src/lib/evm/networks.ts). -/
structure NetworkConfig where
  name : String
  chainId : Nat
  rpcUrl : String
  currencyName : String
  currencySymbol : String
  currencyDecimals : Nat
deriving DecidableEq, Repr

/-- The single entry of the application registry. -/
def hubTestnetConfig : NetworkConfig :=
  { name := "Polkadot Hub TestNet", chainId := 420420422,
    rpcUrl := "https://testnet-passet-hub-eth-rpc.polkadot.io",
    currencyName := "PAS", currencySymbol := "PAS", currencyDecimals := 18 }

/-- Model of `STANDARD_NETWORKS`. -/
def STANDARD_NETWORKS : List (String × NetworkConfig) :=
  [("polkadot-hub-testnet", hubTestnetConfig)]

/-- Model of the application `getNetworkConfig`: exact test against the hub
identifier, then an unconditional fallback to the hub entry; the trailing
throw is reachable only if the table were empty. -/
def getNetworkConfig (network : String) : Except String NetworkConfig :=
  match (if network = "polkadot-hub-testnet" then STANDARD_NETWORKS.lookup network else none) with
  | some cfg => Except.ok cfg
  | none =>
      match STANDARD_NETWORKS.lookup "polkadot-hub-testnet" with
      | some cfg => Except.ok cfg
      | none =>
          Except.error
            ("Network \"" ++ network ++
              "\" is not supported. Only Polkadot Hub TestNet is supported.")

end Evm

namespace Sdk

/-- Network configuration of the SDK registry (src/sdk/src/networks). -/
structure NetworkConfig where
  name : String
  chainId : String
  rpcUrl : String
  currencyName : String
  currencySymbol : String
  currencyDecimals : Nat
  explorerUrl : String
  ss58Format : Nat
deriving DecidableEq, Repr

/-- Model of `POLKADOT_NETWORKS`, in source entry order. -/
def POLKADOT_NETWORKS : List (String × NetworkConfig) :=
  [("polkadot",
    { name := "Polkadot", chainId := "polkadot", rpcUrl := "wss://rpc.polkadot.io",
      currencyName := "DOT", currencySymbol := "DOT", currencyDecimals := 10,
      explorerUrl := "https://polkascan.io/polkadot", ss58Format := 0 }),
   ("kusama",
    { name := "Kusama", chainId := "kusama", rpcUrl := "wss://kusama-rpc.polkadot.io",
      currencyName := "KSM", currencySymbol := "KSM", currencyDecimals := 12,
      explorerUrl := "https://polkascan.io/kusama", ss58Format := 2 }),
   ("westend",
    { name := "Westend", chainId := "westend", rpcUrl := "wss://westend-rpc.polkadot.io",
      currencyName := "WND", currencySymbol := "WND", currencyDecimals := 12,
      explorerUrl := "https://polkascan.io/westend", ss58Format := 42 }),
   ("polkadot-testnet",
    { name := "Polkadot Testnet", chainId := "polkadot-testnet",
      rpcUrl := "wss://rpc.polkadot.io",
      currencyName := "DOT", currencySymbol := "DOT", currencyDecimals := 10,
      explorerUrl := "https://polkascan.io/polkadot", ss58Format := 0 }),
   ("polkadot-hub-testnet",
    { name := "Polkadot Hub TestNet", chainId := "420420422",
      rpcUrl := "https://testnet-passet-hub-eth-rpc.polkadot.io",
      currencyName := "PAS", currencySymbol := "PAS", currencyDecimals := 18,
      explorerUrl := "https://blockscout-passet-hub.parity-testnet.parity.io",
      ss58Format := 0 })]

/-- Error message of the SDK registry for an unknown identifier: it lists the
supported set. -/
def unsupportedNetworkMsg (networkId : String) : String :=
  "Network \"" ++ networkId ++ "\" is not supported. Supported networks: " ++
    String.intercalate ", " (POLKADOT_NETWORKS.map Prod.fst)

/-- Model of the SDK `getNetworkConfig`: exact key lookup, then
case-insensitive fallback over the entries, then a throw listing the
supported identifiers. -/
def getNetworkConfig (networkId : String) : Except String NetworkConfig :=
  match POLKADOT_NETWORKS.lookup networkId with
  | some cfg => Except.ok cfg
  | none =>
      match POLKADOT_NETWORKS.find? (fun e => toLowerStr e.1 = toLowerStr networkId) with
      | some e => Except.ok e.2
      | none => Except.error (unsupportedNetworkMsg networkId)

/-- Model of `getSupportedNetworks`. -/
def getSupportedNetworks : List String := POLKADOT_NETWORKS.map Prod.fst

end Sdk

/-! ## Requirements and results -/

/-- Payment requirements as the JavaScript code sees them: every field may be
absent.  (The zod schema and the explicit field checks reconstruct the
required shape at run time.) -/
structure PaymentRequirements where
  x402Version : Option Int := none
  scheme : Option String := none
  network : Option String := none
  maxAmountRequired : Option String := none
  resource : Option String := none
  description : Option String := none
  mimeType : Option String := none
  payTo : Option String := none
  maxTimeoutSeconds : Option Int := none
  asset : Option String := none
deriving DecidableEq, Repr

/-- Model of the zod `PaymentRequirementsSchema` (src/sdk/src/utils/
validation.ts): x402Version a positive integer, scheme and network nonempty
strings, maxTimeoutSeconds positive when present; other fields free. -/
def validatePaymentRequirements (r : PaymentRequirements) : Bool :=
  (match r.x402Version with | some v => 0 < v | none => false) &&
  (match r.scheme with | some s => s ≠ "" | none => false) &&
  (match r.network with | some s => s ≠ "" | none => false) &&
  (match r.maxTimeoutSeconds with | some t => 0 < t | none => true)

/-- Fallback message used by the SDK verifier and settler when requirements
fail validation (the zod issue text itself is not modelled; the callers string
it together with this fallback). -/
def validationErrorMsg : String := "Invalid payment requirements"

/-- Successful-verification details record. -/
structure VerificationDetails where
  amount : String
  token : String
  fromAddr : String
  toAddr : String
  nonce : String
  timestamp : Int
deriving DecidableEq, Repr

/-- Outcome of the verifier. -/
structure VerificationResult where
  valid : Bool
  error : Option String := none
  details : Option VerificationDetails := none
deriving DecidableEq, Repr

/-- Outcome of the settlers. -/
structure SettlementResult where
  success : Bool
  transactionHash : Option String := none
  error : Option String := none
deriving DecidableEq, Repr

/-- Failed verification with a message. -/
def vErr (msg : String) : VerificationResult :=
  { valid := false, error := some msg }

/-- Failed settlement with a message. -/
def sErr (msg : String) : SettlementResult :=
  { success := false, error := some msg }

/-- Message of the JavaScript exception thrown by `BigInt` on a non-numeric
string (caught by the enclosing handlers). -/
def bigIntErrMsg (s : String) : String :=
  "Cannot convert " ++ s ++ " to a BigInt"

/-! ## SDK verifier (src/sdk/src/facilitator/verify.ts)

`verifyX402Payment` is a straight transcription of the source: a chain of
early returns, each gate named `vNFails`/`vNErr` after its position.  External
effects are oracles: `sigValid` models `signatureVerify` on the canonical
message, `queryBalance` models the optional on-chain balance read (`none`
meaning the RPC query failed and the check is skipped). -/

/-- Gate 1 of the verifier: zod validation of the requirements. -/
def v1Fails (r : PaymentRequirements) : Bool := ¬ validatePaymentRequirements r

/-- Error of gate 1. -/
def v1Err : VerificationResult := vErr validationErrorMsg

/-- Gate 2: protocol version must be 1. -/
def v2Fails (r : PaymentRequirements) : Bool := r.x402Version ≠ some 1

/-- Error of gate 2. -/
def v2Err : VerificationResult :=
  vErr "Unsupported x402 version. Only version 1 is supported."

/-- Gate 3: scheme must be exact. -/
def v3Fails (r : PaymentRequirements) : Bool := r.scheme ≠ some "exact"

/-- Error of gate 3. -/
def v3Err (r : PaymentRequirements) : VerificationResult :=
  vErr ("Unsupported payment scheme: " ++ showOpt r.scheme ++ ". Only " ++ sq ++
    "exact" ++ sq ++ " is supported.")

/-- Gate 4: the network must resolve in the SDK registry. -/
def v4Fails (r : PaymentRequirements) : Bool :=
  match Sdk.getNetworkConfig (showOpt r.network) with
  | Except.ok _ => false
  | Except.error _ => true

/-- Error of gate 4. -/
def v4Err (r : PaymentRequirements) : VerificationResult :=
  vErr ("Unsupported network: " ++ showOpt r.network)

/-- Gate 5: the transport string must decode. -/
def v5Fails (payload : String) : Bool := (decodePaymentPayload payload).isNone

/-- Error of gate 5. -/
def v5Err : VerificationResult :=
  vErr "Invalid payload format. Could not decode payment data."

/-- Decoded payload, with an inert default for the branches where gate 5 has
already failed. -/
def pdOf (payload : String) : PaymentPayload :=
  (decodePaymentPayload payload).getD
    { fromAddr := "", toAddr := "", amount := "", nonce := "", timestamp := 0,
      signature := "" }

/-- Gate 6: structural field presence on the decoded payload. -/
def v6Fails (pd : PaymentPayload) : Bool :=
  pd.fromAddr = "" || pd.toAddr = "" || pd.amount = "" || pd.signature = ""

/-- Error of gate 6. -/
def v6Err : VerificationResult :=
  vErr "Invalid payment payload. Missing required fields."

/-- Gate 7: recipient match against `payTo`, case-insensitively, skipped when
`payTo` is absent or empty. -/
def v7Fails (pd : PaymentPayload) (r : PaymentRequirements) : Bool :=
  truthy r.payTo && toLowerStr pd.toAddr ≠ toLowerStr (jsOr r.payTo "")

/-- Error of gate 7. -/
def v7Err : VerificationResult :=
  vErr "Payment recipient does not match requirements."

/-- Gate 8: amount sufficiency via `BigInt` comparison, skipped when
`maxAmountRequired` is absent or empty; a non-numeric string throws and the
outer catch returns that message. -/
def v8Result (pd : PaymentPayload) (r : PaymentRequirements) : Option VerificationResult :=
  if truthy r.maxAmountRequired then
    match parseBigInt pd.amount with
    | none => some (vErr (bigIntErrMsg pd.amount))
    | some paidAmount =>
        match parseBigInt (jsOr r.maxAmountRequired "") with
        | none => some (vErr (bigIntErrMsg (jsOr r.maxAmountRequired "")))
        | some requiredAmount =>
            if paidAmount < requiredAmount then
              some (vErr ("Payment amount " ++ pd.amount ++ " is less than required " ++
                jsOr r.maxAmountRequired ""))
            else none
  else none

/-- Age of the payload in seconds: `(Date.now() - paymentData.timestamp) /
1000`, an exact rational here. -/
def ageSeconds (nowMs : Int) (pd : PaymentPayload) : Rat :=
  ((nowMs - pd.timestamp : Int) : Rat) / 1000

/-- Effective timeout: `requirements.maxTimeoutSeconds || 300`. -/
def maxTimeoutOf (r : PaymentRequirements) : Int := jsOrNum r.maxTimeoutSeconds 300

/-- Gate 9: timestamp freshness, inclusive boundary.  The source compares
`ageSeconds > maxTimeout` over numbers; division by the positive constant
1000 makes that the integer comparison below (`v9Fails_iff_age`). -/
def v9Fails (nowMs : Int) (pd : PaymentPayload) (r : PaymentRequirements) : Bool :=
  1000 * maxTimeoutOf r < nowMs - pd.timestamp

/-- Error of gate 9 (the numeric rendering of the age inside the message is
modelled by the rational toString). -/
def v9Err (nowMs : Int) (pd : PaymentPayload) (r : PaymentRequirements) : VerificationResult :=
  vErr ("Payment timestamp is too old. Age: " ++ toString (ageSeconds nowMs pd) ++
    "s, max: " ++ toString (maxTimeoutOf r) ++ "s")

/-- Canonical hash message recomputed by the verifier from the decoded fields
and the requirements network and resource. -/
def vHash (pd : PaymentPayload) (r : PaymentRequirements) : PaymentHashMsg :=
  createPaymentHash pd.fromAddr pd.toAddr pd.amount pd.nonce pd.timestamp
    (showOpt r.network) r.resource

/-- Gate 10: signature verification over the canonical hash message. -/
def v10Fails (sigValid : PaymentHashMsg → String → String → Bool)
    (pd : PaymentPayload) (r : PaymentRequirements) : Bool :=
  ¬ sigValid (vHash pd r) pd.signature pd.fromAddr

/-- Error of gate 10. -/
def v10Err : VerificationResult := vErr "Invalid payment signature."

/-- Gate 11: best-effort balance check; a failed query (`none`) or a
non-numeric amount is swallowed and the check is skipped. -/
def v11Fails (queryBalance : String → Option Int) (pd : PaymentPayload) : Bool :=
  match queryBalance pd.fromAddr, parseBigInt pd.amount with
  | some balance, some requiredAmount => balance < requiredAmount
  | _, _ => false

/-- Error of gate 11. -/
def v11Err : VerificationResult := vErr "Insufficient balance for payment."

/-- Success result: valid with the details record. -/
def verifySuccess (pd : PaymentPayload) (r : PaymentRequirements) : VerificationResult :=
  { valid := true,
    details := some
      { amount := pd.amount, token := jsOr r.asset "native", fromAddr := pd.fromAddr,
        toAddr := pd.toAddr, nonce := pd.nonce, timestamp := pd.timestamp } }

/-- Model of the SDK `verifyX402Payment`: the early-return chain, in source
order. -/
def verifyX402Payment (payload : String) (r : PaymentRequirements) (nowMs : Int)
    (sigValid : PaymentHashMsg → String → String → Bool)
    (queryBalance : String → Option Int) : VerificationResult :=
  if v1Fails r then v1Err
  else if v2Fails r then v2Err
  else if v3Fails r then v3Err r
  else if v4Fails r then v4Err r
  else
    match decodePaymentPayload payload with
    | none => v5Err
    | some pd =>
        if v6Fails pd then v6Err
        else if v7Fails pd r then v7Err
        else
          match v8Result pd r with
          | some e => e
          | none =>
              if v9Fails nowMs pd r then v9Err nowMs pd r
              else if v10Fails sigValid pd r then v10Err
              else if v11Fails queryBalance pd then v11Err
              else verifySuccess pd r

/-- The verifier gate list in the order the specification names the steps:
requirements structure, version, scheme, network resolution, payload decode,
field presence, recipient match, amount sufficiency, timestamp freshness,
signature verification, optional balance check. -/
def verifyGates (payload : String) (r : PaymentRequirements) (nowMs : Int)
    (sigValid : PaymentHashMsg → String → String → Bool)
    (queryBalance : String → Option Int) : List (Bool × VerificationResult) :=
  [(v1Fails r, v1Err),
   (v2Fails r, v2Err),
   (v3Fails r, v3Err r),
   (v4Fails r, v4Err r),
   (v5Fails payload, v5Err),
   (v6Fails (pdOf payload), v6Err),
   (v7Fails (pdOf payload) r, v7Err),
   ((v8Result (pdOf payload) r).isSome, (v8Result (pdOf payload) r).getD (vErr "")),
   (v9Fails nowMs (pdOf payload) r, v9Err nowMs (pdOf payload) r),
   (v10Fails sigValid (pdOf payload) r, v10Err),
   (v11Fails queryBalance (pdOf payload), v11Err)]

/-- First failing gate of a gate list, if any. -/
def firstFailure : List (Bool × VerificationResult) → Option VerificationResult
  | [] => none
  | (b, e) :: rest => if b then some e else firstFailure rest

/-! ## Application verifier (src/lib/x402/verify.ts)

The application `verifyX402Payment` delegates the cryptographic check to the
external `x402/facilitator` `verify` call; that call (together with the
`createSigner` step) enters the model as an oracle returning either the
response record or a thrown error message, which the enclosing `catch`
converts into an error result. -/

/-- Response of the external `x402/facilitator` `verify` call, as the
application reads it: `isValid`, `invalidReason`, `payer`, and the fields of
the untyped optional `details` member it dereferences. -/
structure XVerifyResp where
  isValid : Bool
  invalidReason : Option String := none
  payer : Option String := none
  detailsAmount : Option String := none
  detailsToken : Option String := none
  detailsNonce : Option String := none
  detailsTimestamp : Option Int := none
deriving DecidableEq, Repr

/-- Success details of the application verifier (`nonce` and `timestamp` are
optional in its result type, unlike the SDK verifier's). -/
structure AppVerificationDetails where
  amount : String
  token : String
  fromAddr : String
  toAddr : String
  nonce : Option String := none
  timestamp : Option Int := none
deriving DecidableEq, Repr

/-- Outcome of the application verifier. -/
structure AppVerificationResult where
  valid : Bool
  error : Option String := none
  details : Option AppVerificationDetails := none
deriving DecidableEq, Repr

/-- Failed application verification with a message. -/
def appVErr (msg : String) : AppVerificationResult :=
  { valid := false, error := some msg }

/-- The `^0x[0-9a-fA-F]+$` regular-expression test of the application
verifier. -/
def isHexPayload (s : String) : Bool :=
  match s.data with
  | '0' :: 'x' :: rest => rest ≠ [] && rest.all (fun c => (hexVal? c).isSome)
  | _ => false

/-- Model of the application `verifyX402Payment`: requirements checks
(version, scheme presence, network presence, registry resolution), then the
payload checks (presence, `0x` prefix), and only then the dispatch on
`scheme === 'exact'` — whose branch checks length and the hex shape before
the external verify call; a scheme other than `exact` is reported only after
the payload checks.  On success the details take amount and token from the
external result when present, falling back to the requirements. -/
def appVerifyX402Payment
    (oracle : String → PaymentRequirements → Except String XVerifyResp)
    (payload : String) (r : PaymentRequirements) : AppVerificationResult :=
  if r.x402Version ≠ some 1 then
    appVErr "Unsupported x402 version. Only version 1 is supported."
  else if ¬ truthy r.scheme then appVErr "Payment scheme is required."
  else if ¬ truthy r.network then appVErr "Network is required."
  else
    match Evm.getNetworkConfig (jsOr r.network "") with
    | Except.error _ =>
        appVErr (String.append "Unsupported network: " (jsOr r.network ""))
    | Except.ok _ =>
        if payload = "" then appVErr "Invalid payload format."
        else if ¬ startsWithStr payload "0x" then
          appVErr "Payload must be a hex string starting with 0x"
        else if jsOr r.scheme "" = "exact" then
          if payload.length < 66 then appVErr "Payload too short to be valid"
          else if ¬ isHexPayload payload then
            appVErr "Invalid payload format: must be valid hex string"
          else
            match oracle payload r with
            | Except.error msg => appVErr msg
            | Except.ok vr =>
                if vr.isValid then
                  { valid := true,
                    details := some
                      { amount := jsOr vr.detailsAmount (jsOr r.maxAmountRequired "0"),
                        token := jsOr vr.detailsToken (jsOr r.asset ""),
                        fromAddr := jsOr vr.payer "",
                        toAddr := jsOr r.payTo "",
                        nonce := vr.detailsNonce,
                        timestamp := vr.detailsTimestamp } }
                else appVErr (jsOr vr.invalidReason "Payment verification failed")
        else
          appVErr (String.append "Unsupported payment scheme: " (jsOr r.scheme ""))

/-! ## Application settler (src/lib/x402/settle.ts) -/

/-- Authorization object extracted from a settle payload; any field may be
missing. -/
structure AuthRec where
  fromAddr : Option String := none
  toAddr : Option String := none
  amount : Option String := none
  asset : Option String := none
deriving DecidableEq, Repr

/-- Parser for the authorization object shape
(from, to, amount, optional asset). -/
def parseAuthObj (cs : List Char) : Option (AuthRec × List Char) :=
  match dropLit [lbrace] cs with
  | none => none
  | some cs0 =>
  match parseStrField "from" cs0 with
  | none => none
  | some (f, cs1) =>
  match dropComma cs1 with
  | none => none
  | some cs1b =>
  match parseStrField "to" cs1b with
  | none => none
  | some (t, cs2) =>
  match dropComma cs2 with
  | none => none
  | some cs2b =>
  match parseStrField "amount" cs2b with
  | none => none
  | some (a, cs3) =>
  match dropLit [rbrace] cs3 with
  | some cs4 =>
      some ({ fromAddr := some f, toAddr := some t, amount := some a }, cs4)
  | none =>
  match dropComma cs3 with
  | none => none
  | some cs3b =>
  match parseStrField "asset" cs3b with
  | none => none
  | some (x, cs4) =>
  match dropLit [rbrace] cs4 with
  | none => none
  | some cs5 =>
      some ({ fromAddr := some f, toAddr := some t, amount := some a, asset := some x }, cs5)

/-- Model of `JSON.parse` plus the duck-typed authorization extraction
(`paymentData?.payload?.authorization || paymentData?.authorization`),
specialized to the object shapes this pipeline produces: a top-level
`authorization` member, the same nested under `payload`, or an empty object
(no authorization).  `none` is a parse failure. -/
def parseSettleJson (cs : List Char) : Option (Option AuthRec) :=
  match dropLit ([lbrace] ++ keyLit "authorization") cs with
  | some cs1 =>
      (match parseAuthObj cs1 with
       | none => none
       | some (auth, cs2) =>
           match dropLit [rbrace] cs2 with
           | some [] => some (some auth)
           | _ => none)
  | none =>
  match dropLit ([lbrace] ++ keyLit "payload" ++ [lbrace] ++ keyLit "authorization") cs with
  | some cs1 =>
      (match parseAuthObj cs1 with
       | none => none
       | some (auth, cs2) =>
           match dropLit [rbrace, rbrace] cs2 with
           | some [] => some (some auth)
           | _ => none)
  | none =>
      match dropLit [lbrace, rbrace] cs with
      | some [] => some none
      | _ => none

/-- Inner message of a JavaScript `JSON.parse` failure (its exact engine text
is not modelled). -/
def jsonParseErrMsg : String := "Unexpected token in JSON"

/-- Transaction request broadcast by the application settler.  The sender is
the wallet that signs it — the server-configured buyer wallet. -/
structure EvmTx where
  fromAddr : String
  toAddr : String
  value : Int
deriving DecidableEq, Repr

/-- Response of `sendTransaction`. -/
structure EvmTxResponse where
  hash : String
deriving DecidableEq, Repr

/-- Receipt of `txResponse.wait()`. -/
structure EvmReceipt where
  hash : String
deriving DecidableEq, Repr

/-- Environment of the application settler: the server-configured buyer
wallet, its provider and current balance, and the broadcast/receipt oracles.
`Except.error` in an oracle is a thrown exception. -/
structure EvmEnv where
  buyerAddress : String
  providerAvailable : Bool
  balance : Nat
  send : EvmTx → Except String EvmTxResponse
  waitReceipt : EvmTxResponse → Except String (Option EvmReceipt)

/-- The all-zero asset placeholder address. -/
def zeroAddr : String := "0x0000000000000000000000000000000000000000"

/-- Drop trailing zero digits of the fractional part. -/
def dropTrailingZeros (cs : List Char) : List Char :=
  (cs.reverse.dropWhile (fun c => c = '0')).reverse

/-- Model of `ethers.formatEther` on a nonnegative amount: integer part, a
dot, and the 18-digit fraction trimmed of trailing zeros, at least one
fractional digit. -/
def formatEther (wei : Nat) : String :=
  let ip := natToDecimal (wei / 1000000000000000000)
  let fracDigits := natToDecimal (wei % 1000000000000000000)
  let fracPadded := List.replicate (18 - fracDigits.length) '0' ++ fracDigits
  let trimmed := dropTrailingZeros fracPadded
  String.mk (ip ++ ['.'] ++ (if trimmed = [] then ['0'] else trimmed))

/-- Model of `ethers.formatEther` on a signed amount. -/
def formatEtherInt (wei : Int) : String :=
  if wei < 0 then "-" ++ formatEther wei.natAbs else formatEther wei.natAbs

/-- Address-mismatch message of the application settler. -/
def mismatchMsg (fromAddr buyerAddress : String) : String :=
  "Authorization from address (" ++ fromAddr ++ ") does not match buyer address (" ++
    buyerAddress ++ ")"

/-- Insufficient-balance message of the application settler. -/
def insufficientBalanceMsg (balance : Nat) (amount : Int) : String :=
  "Insufficient buyer balance: has " ++ formatEther balance ++ " PAS, needs " ++
    formatEtherInt amount ++ " PAS"

/-- Parse step of `settleExactPayment`: a payload that is neither hex nor raw
JSON is treated as base64 JSON, a raw JSON payload is parsed directly, and a
hex payload is rejected; a parse exception becomes the failed-to-parse
message. -/
def parseSettlePayload (payload : String) : Except String (Option AuthRec) :=
  if ¬ startsWithStr payload "0x" ∧ ¬ startsWithStr payload (String.singleton lbrace) then
    match parseSettleJson (bufferToStringUtf8 (base64DecodeBytes payload)).data with
    | some x => Except.ok x
    | none => Except.error ("Failed to parse payload: " ++ jsonParseErrMsg)
  else if startsWithStr payload (String.singleton lbrace) then
    match parseSettleJson payload.data with
    | some x => Except.ok x
    | none => Except.error ("Failed to parse payload: " ++ jsonParseErrMsg)
  else Except.error "Invalid payload format: expected base64-encoded JSON"

/-- Field-presence test of `settleExactPayment`: `from`, the recipient (the
payload `to` falling back to the requirements `payTo`) and the amount must be
present and nonempty. -/
def authFieldsPresent (auth : AuthRec) (req : PaymentRequirements) : Bool :=
  truthy auth.fromAddr && truthy (jsOrOpt auth.toAddr req.payTo) && truthy auth.amount

/-- Native-asset test of `settleExactPayment`: the requirements asset is
native or absent, or the authorization asset is the zero address or
native. -/
def isNativeAsset (auth : AuthRec) (req : PaymentRequirements) : Bool :=
  req.asset = some "native" || ¬ truthy req.asset ||
    auth.asset = some zeroAddr || auth.asset = some "native"

/-- Model of `settleExactPayment`: parse the payload (base64 or raw JSON, a
hex string is rejected), extract the authorization, route native transfers
through the server-held buyer wallet — address match, provider presence and
balance gates before the broadcast — and succeed only once a receipt with a
hash is obtained.  The second component lists the broadcast requests
issued. -/
def settleExactPayment (payload : String) (req : PaymentRequirements) (env : EvmEnv) :
    SettlementResult × List EvmTx :=
  match parseSettlePayload payload with
  | Except.error msg => (sErr msg, [])
  | Except.ok none => (sErr "Missing authorization in payload", [])
  | Except.ok (some auth) =>
      if ¬ authFieldsPresent auth req then
        (sErr "Missing required fields in authorization", [])
      else if isNativeAsset auth req then
        if toLowerStr (jsOr auth.fromAddr "") ≠ toLowerStr env.buyerAddress then
          (sErr (mismatchMsg (jsOr auth.fromAddr "") env.buyerAddress), [])
        else if ¬ env.providerAvailable then
          (sErr "Buyer wallet provider is not available", [])
        else
          match parseBigInt (jsOr auth.amount "") with
          | none => (sErr (bigIntErrMsg (jsOr auth.amount "")), [])
          | some amountBigInt =>
              if (env.balance : Int) < amountBigInt then
                (sErr (insufficientBalanceMsg env.balance amountBigInt), [])
              else
                match env.send
                    ⟨env.buyerAddress, jsOr (jsOrOpt auth.toAddr req.payTo) "",
                      amountBigInt⟩ with
                | Except.error e =>
                    (sErr e,
                      [⟨env.buyerAddress, jsOr (jsOrOpt auth.toAddr req.payTo) "",
                        amountBigInt⟩])
                | Except.ok resp =>
                    match env.waitReceipt resp with
                    | Except.error e =>
                        (sErr e,
                          [⟨env.buyerAddress, jsOr (jsOrOpt auth.toAddr req.payTo) "",
                            amountBigInt⟩])
                    | Except.ok none =>
                        (sErr "Transaction failed: no receipt hash",
                          [⟨env.buyerAddress, jsOr (jsOrOpt auth.toAddr req.payTo) "",
                            amountBigInt⟩])
                    | Except.ok (some receipt) =>
                        if receipt.hash = "" then
                          (sErr "Transaction failed: no receipt hash",
                            [⟨env.buyerAddress, jsOr (jsOrOpt auth.toAddr req.payTo) "",
                              amountBigInt⟩])
                        else
                          ({ success := true, transactionHash := some receipt.hash },
                            [⟨env.buyerAddress, jsOr (jsOrOpt auth.toAddr req.payTo) "",
                              amountBigInt⟩])
      else (sErr "ERC20 token settlement not yet implemented", [])

/-- Model of the application `settleX402Payment`: version, scheme-presence,
network-presence and registry gates, then the exact-scheme settlement. -/
def appSettleX402Payment (payload : String) (req : PaymentRequirements) (env : EvmEnv) :
    SettlementResult × List EvmTx :=
  if req.x402Version ≠ some 1 then
    (sErr "Unsupported x402 version. Only version 1 is supported.", [])
  else if ¬ truthy req.scheme then (sErr "Payment scheme is required.", [])
  else if ¬ truthy req.network then (sErr "Network is required.", [])
  else
    match Evm.getNetworkConfig (showOpt req.network) with
    | Except.error _ => (sErr ("Unsupported network: " ++ showOpt req.network), [])
    | Except.ok _ =>
        if req.scheme = some "exact" then settleExactPayment payload req env
        else (sErr ("Unsupported payment scheme: " ++ showOpt req.scheme), [])

/-! ## SDK settler (src/sdk/src/facilitator, settle logic) -/

/-- Substrate extrinsic request: a balance transfer signed by `signer`. -/
structure SubTx where
  toAddr : String
  amount : Int
  signer : String
  nonce : Nat
deriving DecidableEq, Repr

/-- Environment of the SDK settler.  `signAndSend` models
`signAndSendTransaction`, whose promise resolves with the transaction hash
only once the status is in-block or finalized (never on mere broadcast);
`balances` is the on-chain account state (readable through
`getAccountBalance`, which this settler never calls). -/
structure SubEnv where
  balances : String → Nat
  deriveAddress : String → String
  accountNonce : String → Nat
  signAndSend : SubTx → Except String String

/-- Model of `getAccountBalance` (src/sdk/src/utils/substrate.ts). -/
def getAccountBalance (env : SubEnv) (address : String) : Nat := env.balances address

/-- Model of the SDK `settleX402Payment`: validation, version, scheme and
registry gates, payload decode, then an unconditional transfer of the decoded
amount to the decoded recipient, signed with the facilitator key.  No balance
is read and no signature is checked before broadcasting. -/
def sdkSettleX402Payment (payload : String) (r : PaymentRequirements)
    (facilitatorPrivateKey : String) (env : SubEnv) : SettlementResult × List SubTx :=
  if ¬ validatePaymentRequirements r then (sErr validationErrorMsg, [])
  else if r.x402Version ≠ some 1 then
    (sErr "Unsupported x402 version. Only version 1 is supported.", [])
  else if r.scheme ≠ some "exact" then
    (sErr ("Unsupported payment scheme: " ++ showOpt r.scheme ++ ". Only " ++ sq ++
      "exact" ++ sq ++ " is supported."), [])
  else
    match Sdk.getNetworkConfig (showOpt r.network) with
    | Except.error e => (sErr e, [])
    | Except.ok _ =>
        match decodePaymentPayload payload with
        | none => (sErr "Invalid payload format. Could not decode payment data.", [])
        | some pd =>
            match parseBigInt pd.amount with
            | none => (sErr (bigIntErrMsg pd.amount), [])
            | some amount =>
                match env.signAndSend
                    ⟨pd.toAddr, amount, env.deriveAddress facilitatorPrivateKey,
                      env.accountNonce (env.deriveAddress facilitatorPrivateKey)⟩ with
                | Except.error e =>
                    (sErr e,
                      [⟨pd.toAddr, amount, env.deriveAddress facilitatorPrivateKey,
                        env.accountNonce (env.deriveAddress facilitatorPrivateKey)⟩])
                | Except.ok txHash =>
                    ({ success := true, transactionHash := some txHash },
                      [⟨pd.toAddr, amount, env.deriveAddress facilitatorPrivateKey,
                        env.accountNonce (env.deriveAddress facilitatorPrivateKey)⟩])

/-! ## Gateway middleware (src/middleware.ts)

The middleware runs once per inbound request.  The facilitator verify and
settle endpoints are HTTP collaborators; their responses enter the model as
`VerifyResp`/`SettleResp` values (a failed fetch is already folded into a
`valid:false`/`success:false` value by the code).  The second component of
the result records whether the settle endpoint was invoked. -/

/-- Per-route payment configuration (`ROUTE_PAYMENT_CONFIG`). -/
structure RouteConfig where
  amount : String
  token : Option String := none
  description : Option String := none
deriving DecidableEq, Repr

/-- Deployment environment of the middleware. -/
structure MwEnv where
  network : String
  sellerAddress : String
  tokenAddress : String
deriving DecidableEq, Repr

/-- Details member of the facilitator verify response, as the middleware
reads it. -/
structure VerifyRespDetails where
  amount : Option String := none
  token : Option String := none
deriving DecidableEq, Repr

/-- Facilitator verify response. -/
structure VerifyResp where
  valid : Bool
  error : Option String := none
  details : Option VerifyRespDetails := none
deriving DecidableEq, Repr

/-- Facilitator settle response. -/
structure SettleResp where
  success : Bool
  transactionHash : Option String := none
  error : Option String := none
deriving DecidableEq, Repr

/-- A 402 response body; `extra` carries the path-specific members
(paid/required, expected/received). -/
structure Body402 where
  error : Option String := none
  details : Option String := none
  maxAmountRequired : String
  resource : String
  payTo : String
  asset : String
  network : String
  description : Option String := none
  extra : List (String × String) := []
deriving DecidableEq, Repr

/-- Terminal outcome of the middleware for one request: a forward with
response headers, a 402 with a body and an optional `X-402-Error` header
value, or an uncaught exception (a 5xx at the framework boundary). -/
inductive MwOutcome where
  | forward (headers : List (String × String))
  | pay402 (body : Body402) (errHeader : Option String)
  | crash (msg : String)
deriving DecidableEq, Repr

/-- Sanitization applied to the verification error before inclusion in the
402 body and header: newlines become spaces, then the text is capped at 200
characters. -/
def sanitizeError (s : String) : String :=
  String.mk ((s.data.map (fun c => if c = '\n' then ' ' else c)).take 200)

/-- JSON of the `X-Payment-Response` header. -/
def paymentResponseJson (txHash : String) : String :=
  String.mk ([lbrace] ++ keyLit "transactionHash" ++ jsonQuote txHash ++ [','] ++
    keyLit "settled" ++ "true".data ++ [rbrace])

/-- HTTP whitespace, stripped from both ends of an incoming value by a fetch
`Headers` object. -/
def isHttpWs (c : Char) : Bool :=
  c = ' ' || c = Char.ofNat 9 || c = '\n' || c = Char.ofNat 13

/-- Normalization a `Headers` object applies to a value being set: leading
and trailing HTTP whitespace is stripped. -/
def normalizeHeaderValue (s : String) : String :=
  String.mk (((s.data.dropWhile isHttpWs).reverse.dropWhile isHttpWs).reverse)

/-- Validity of a header value: if the normalized value still contains NUL,
LF or CR, setting it throws a `TypeError` in the response constructor. -/
def headerValueOk (s : String) : Bool :=
  (normalizeHeaderValue s).data.all
    (fun c => ¬ (c = Char.ofNat 0 || c = '\n' || c = Char.ofNat 13))

/-- Settlement phase of the middleware.  A failed settlement yields a 402
whose body embeds the raw settlement error and whose `X-402-Error` header
carries it unmodified up to header-value normalization — unless the error is
not a legal header value, in which case the response constructor throws and
the request crashes.  A successful settlement forwards the request with the
payment headers, the transaction-hash header subject to the same header
validation. -/
def mwSettlePhase (pathname : String) (cfg : RouteConfig) (env : MwEnv)
    (verification : VerifyResp) (settlement : SettleResp) : MwOutcome × Bool :=
  if ¬ settlement.success then
    if headerValueOk (jsOr settlement.error "Settlement failed") then
      (MwOutcome.pay402
        { error := some "Payment settlement failed", details := settlement.error,
          maxAmountRequired := cfg.amount, resource := pathname,
          payTo := env.sellerAddress, asset := jsOr cfg.token env.tokenAddress,
          network := env.network }
        (some (normalizeHeaderValue (jsOr settlement.error "Settlement failed"))), true)
    else (MwOutcome.crash "TypeError: invalid header value", true)
  else
    match settlement.transactionHash with
    | some h =>
        if headerValueOk h then
          (MwOutcome.forward
            [("X-Payment-Verified", "true"),
              ("X-Payment-Amount",
                match verification.details with
                | some d => jsOr d.amount "0"
                | none => "0"),
              ("X-Settlement-Tx", normalizeHeaderValue h),
              ("X-Payment-Response", paymentResponseJson h)], true)
        else (MwOutcome.crash "TypeError: invalid header value", true)
    | none =>
        (MwOutcome.forward
          [("X-Payment-Verified", "true"),
            ("X-Payment-Amount",
              match verification.details with
              | some d => jsOr d.amount "0"
              | none => "0")], true)

/-- Model of the middleware: the per-request pipeline.  `extracted` is the
result of `extractPayment` on the request headers (absent when no usable
payment header is present). -/
def middleware (protectedRoute : Bool) (pathname : String) (cfg : RouteConfig)
    (env : MwEnv) (extracted : Option (String × PaymentRequirements))
    (verification : VerifyResp) (settlement : SettleResp) : MwOutcome × Bool :=
  if ¬ protectedRoute then (MwOutcome.forward [], false)
  else
    match extracted with
    | none =>
        (MwOutcome.pay402
          { maxAmountRequired := cfg.amount, resource := pathname,
            description := some (jsOr cfg.description "Access to this resource requires payment"),
            payTo := env.sellerAddress, asset := jsOr cfg.token env.tokenAddress,
            network := env.network }
          none, false)
    | some _ =>
        if ¬ verification.valid then
          (MwOutcome.pay402
            { error := some "Payment verification failed",
              details := some (sanitizeError (jsOr verification.error "Invalid payment")),
              maxAmountRequired := cfg.amount, resource := pathname,
              payTo := env.sellerAddress, asset := jsOr cfg.token env.tokenAddress,
              network := env.network }
            (some (sanitizeError (jsOr verification.error "Invalid payment"))), false)
        else
          match verification.details with
          | some d =>
              (match parseBigInt (jsOr d.amount "0"), parseBigInt cfg.amount with
               | some paidAmount, some requiredAmount =>
                   if paidAmount < requiredAmount then
                     (MwOutcome.pay402
                       { error := some "Insufficient payment amount",
                         extra := [("paid", showOpt d.amount), ("required", cfg.amount)],
                         maxAmountRequired := cfg.amount, resource := pathname,
                         payTo := env.sellerAddress, asset := jsOr cfg.token env.tokenAddress,
                         network := env.network }
                       (some "Insufficient payment"), false)
                   else
                     (match d.token with
                      | some t =>
                          if t ≠ "" then
                            if toLowerStr t ≠ toLowerStr (jsOr cfg.token env.tokenAddress) then
                              (MwOutcome.pay402
                                { error := some "Invalid payment token",
                                  extra := [("expected", jsOr cfg.token env.tokenAddress),
                                    ("received", t)],
                                  maxAmountRequired := cfg.amount, resource := pathname,
                                  payTo := env.sellerAddress,
                                  asset := jsOr cfg.token env.tokenAddress,
                                  network := env.network }
                                (some "Invalid token"), false)
                            else mwSettlePhase pathname cfg env verification settlement
                          else mwSettlePhase pathname cfg env verification settlement
                      | none => mwSettlePhase pathname cfg env verification settlement)
               | _, _ => (MwOutcome.crash "BigInt: cannot convert payment amount", false))
          | none => mwSettlePhase pathname cfg env verification settlement

/-! ## Safety predicates for codec inputs

Protocol values (addresses, amounts, nonces, hex signatures) are ASCII
strings without quotes, backslashes or control characters; the round-trip
statements quantify over payloads of this shape. -/

/-- Characters that `JSON.stringify` emits unescaped and that occupy one
UTF-8 byte. -/
def safeCharB (c : Char) : Bool :=
  c ≠ '"' && c ≠ '\\' && 32 ≤ c.toNat && c.toNat < 128

/-- Strings of safe characters. -/
def safeStrB (s : String) : Bool := s.data.all safeCharB

/-- Payloads whose string fields are all safe. -/
def safePayload (p : PaymentPayload) : Bool :=
  safeStrB p.fromAddr && safeStrB p.toAddr && safeStrB p.amount &&
    safeStrB p.nonce && safeStrB p.signature

/-! ## Helper lemmas: the codec inverts itself -/

theorem dropLit_append (lit rest : List Char) : dropLit lit (lit ++ rest) = some rest := by
  induction lit with
  | nil => rfl
  | cons c cs ih => simp [dropLit, ih]

theorem escapeChar_safe (c : Char) (h : safeCharB c = true) : escapeChar c = [c] := by
  simp only [safeCharB, Bool.and_eq_true, decide_eq_true_eq, ne_eq] at h
  obtain ⟨⟨⟨h1, h2⟩, h3⟩, h4⟩ := h
  have hn : c ≠ '\n' := by intro e; subst e; simp at h3
  have hr : c ≠ '\r' := by intro e; subst e; simp at h3
  have ht : c ≠ '\t' := by intro e; subst e; simp at h3
  simp [escapeChar, h1, h2, hn, hr, ht]

theorem flatMap_escape_safe (l : List Char) (h : ∀ c ∈ l, safeCharB c = true) :
    l.flatMap escapeChar = l := by
  induction l with
  | nil => rfl
  | cons c cs ih =>
      simp only [List.flatMap_cons]
      rw [escapeChar_safe c (h c (by simp)), ih (fun x hx => h x (by simp [hx]))]
      rfl

theorem readStr_round (s rest : List Char) (h : ∀ c ∈ s, safeCharB c = true) :
    readStr (s ++ '"' :: rest) = some (s, rest) := by
  induction s with
  | nil => rw [List.nil_append, readStr.eq_def]; rfl
  | cons c cs ih =>
      have hc := h c (by simp)
      simp only [safeCharB, Bool.and_eq_true, decide_eq_true_eq, ne_eq] at hc
      obtain ⟨⟨⟨h1, h2⟩, h3⟩, h4⟩ := hc
      rw [List.cons_append, readStr.eq_def]
      simp only [h1, h2, if_false]
      rw [if_neg (by omega)]
      rw [ih (fun x hx => h x (by simp [hx]))]
      rfl

theorem parseStrField_round (k v : String) (rest : List Char)
    (hv : safeStrB v = true) :
    parseStrField k (keyLit k ++ (jsonQuote v ++ rest)) = some (v, rest) := by
  have hsafe : ∀ c ∈ v.data, safeCharB c = true := by
    simpa [safeStrB, List.all_eq_true] using hv
  unfold parseStrField
  rw [dropLit_append]
  have hq : jsonQuote v ++ rest = '"' :: (v.data ++ '"' :: rest) := by
    simp [jsonQuote, flatMap_escape_safe v.data hsafe]
  rw [hq]
  have hdq : dropLit ['"'] ('"' :: (v.data ++ '"' :: rest)) = some (v.data ++ '"' :: rest) := by
    simpa using dropLit_append ['"'] (v.data ++ '"' :: rest)
  simp only [hdq, readStr_round v.data rest hsafe, Option.map_some']

theorem hexVal_hexDigitChar (d : Nat) (hd : d < 16) : hexVal? (hexDigitChar d) = some d := by
  interval_cases d <;> decide

theorem hexDigitChar_ne_x (d : Nat) : hexDigitChar d ≠ 'x' := by
  by_cases hd : d < 16
  · interval_cases d <;> decide
  · have hlen : hexChars.length ≤ d := by
      have h16 : hexChars.length = 16 := by decide
      omega
    unfold hexDigitChar
    rw [List.getD_eq_default _ _ hlen]
    decide

theorem hexPairBytes_round (bs : List Nat) (h : ∀ b ∈ bs, b < 256) :
    hexPairBytes (bs.flatMap byteHexChars) = bs := by
  induction bs with
  | nil => rfl
  | cons b rest ih =>
      have hb : b < 256 := h b (by simp)
      simp only [List.flatMap_cons, byteHexChars, List.cons_append, List.nil_append]
      rw [hexPairBytes]
      simp only [hexNibble, hexVal_hexDigitChar (b / 16 % 16) (by omega),
        hexVal_hexDigitChar (b % 16) (by omega), Option.getD_some]
      rw [ih (fun x hx => h x (by simp [hx]))]
      have hb16 : 16 * (b / 16 % 16) + b % 16 = b := by omega
      rw [hb16]

theorem hexToU8aChars_flatMap (bs : List Nat) (h : ∀ b ∈ bs, b < 256) :
    hexToU8aChars (bs.flatMap byteHexChars) = bs := by
  cases bs with
  | nil => rfl
  | cons b rest =>
      have hx : hexDigitChar (b % 16) ≠ 'x' := hexDigitChar_ne_x (b % 16)
      have hflat := hexPairBytes_round (b :: rest) h
      simp only [List.flatMap_cons, byteHexChars, List.cons_append, List.nil_append] at hflat ⊢
      unfold hexToU8aChars
      split
      · rename_i rest2 heq
        injection heq with h1 h2
        injection h2 with h2 h3
        exact absurd h2 hx
      · exact hflat

theorem hexToU8a_flatMap (bs : List Nat) (h : ∀ b ∈ bs, b < 256) :
    hexToU8a (String.mk (bs.flatMap byteHexChars)) = bs := by
  have h0 : hexToU8a (String.mk (bs.flatMap byteHexChars)) =
      hexToU8aChars (bs.flatMap byteHexChars) := rfl
  rw [h0]
  exact hexToU8aChars_flatMap bs h

theorem charUtf8_ascii (c : Char) (h : c.toNat < 128) : charUtf8 c = [c.toNat] := by
  simp [charUtf8, h]

theorem charUtf8_length_pos (c : Char) : 0 < (charUtf8 c).length := by
  by_cases h1 : c.toNat < 128 <;> by_cases h2 : c.toNat < 2048 <;>
    by_cases h3 : c.toNat < 65536 <;> simp [charUtf8, h1, h2, h3]

theorem length_le_flatMap_charUtf8 (cs : List Char) :
    cs.length ≤ (cs.flatMap charUtf8).length := by
  induction cs with
  | nil => simp
  | cons c rest ih =>
      simp only [List.flatMap_cons, List.length_append, List.length_cons]
      have := charUtf8_length_pos c
      omega

theorem utf8DecodeFuel_ascii (cs : List Char) :
    ∀ fuel : Nat, cs.length ≤ fuel → (∀ c ∈ cs, c.toNat < 128) →
      utf8DecodeFuel fuel (cs.flatMap charUtf8) = some cs := by
  induction cs with
  | nil => intro fuel _ _; cases fuel <;> rfl
  | cons c rest ih =>
      intro fuel hf h
      have hc : c.toNat < 128 := h c (by simp)
      cases fuel with
      | zero => simp at hf
      | succ f =>
          simp only [List.flatMap_cons, charUtf8_ascii c hc, List.cons_append,
            List.nil_append, utf8DecodeFuel]
          have hone : utf8DecodeOne c.toNat (rest.flatMap charUtf8)
              = some (Char.ofNat c.toNat, rest.flatMap charUtf8) := by
            simp [utf8DecodeOne, hc]
          simp only [hone]
          rw [ih f (by simp at hf; omega) (fun x hx => h x (by simp [hx]))]
          simp only [Option.map_some', Char.ofNat_toNat]

theorem utf8_ascii_round (cs : List Char) (h : ∀ c ∈ cs, c.toNat < 128) :
    utf8Decode (cs.flatMap charUtf8) = some cs := by
  exact utf8DecodeFuel_ascii cs _ (length_le_flatMap_charUtf8 cs) h

theorem digitChar_spec (d : Nat) (hd : d < 10) :
    (digitChar d).isDigit = true ∧ digitVal (digitChar d) = d := by
  interval_cases d <;> exact ⟨rfl, rfl⟩

theorem natToDecimalAux_irrel (n : Nat) :
    ∀ f1 f2, n < f1 → n < f2 → natToDecimalAux f1 n = natToDecimalAux f2 n := by
  induction n using Nat.strong_induction_on with
  | _ n ih =>
      intro f1 f2 h1 h2
      cases f1 with
      | zero => omega
      | succ g1 =>
          cases f2 with
          | zero => omega
          | succ g2 =>
              rw [natToDecimalAux, natToDecimalAux]
              by_cases h10 : n < 10
              · simp [h10]
              · rw [if_neg h10, if_neg h10,
                  ih (n / 10) (by omega) g1 g2 (by omega) (by omega)]

theorem natToDecimal_eq (n : Nat) :
    natToDecimal n =
      if n < 10 then [digitChar n] else natToDecimal (n / 10) ++ [digitChar (n % 10)] := by
  by_cases h : n < 10
  · simp [natToDecimal, natToDecimalAux, h]
  · unfold natToDecimal
    rw [natToDecimalAux, if_neg h, if_neg h]
    rw [natToDecimalAux_irrel (n / 10) n (n / 10 + 1) (by omega) (by omega)]

theorem natToDecimal_all_digits (n : Nat) : ∀ c ∈ natToDecimal n, c.isDigit = true := by
  induction n using Nat.strong_induction_on with
  | _ n ih =>
      intro c hc
      rw [natToDecimal_eq] at hc
      by_cases h : n < 10
      · simp [h] at hc
        subst hc
        exact (digitChar_spec n h).1
      · simp only [h, if_neg, if_false, List.mem_append, List.mem_singleton] at hc
        rcases hc with hc | hc
        · exact ih (n / 10) (by omega) c hc
        · subst hc
          exact (digitChar_spec (n % 10) (by omega)).1

theorem natToDecimal_cons (n : Nat) :
    ∃ c cs, natToDecimal n = c :: cs ∧ c.isDigit = true := by
  induction n using Nat.strong_induction_on with
  | _ n ih =>
      rw [natToDecimal_eq]
      by_cases h : n < 10
      · exact ⟨digitChar n, [], by simp [h], (digitChar_spec n h).1⟩
      · obtain ⟨c, cs, hcs, hdig⟩ := ih (n / 10) (by omega)
        exact ⟨c, cs ++ [digitChar (n % 10)], by simp [h, hcs], hdig⟩

theorem parseDigitsAux_natToDecimal (n : Nat) :
    ∀ acc (rest : List Char),
      parseDigitsAux acc (natToDecimal n ++ rest) =
        parseDigitsAux (acc * 10 ^ (natToDecimal n).length + n) rest := by
  induction n using Nat.strong_induction_on with
  | _ n ih =>
      intro acc rest
      rw [natToDecimal_eq]
      by_cases h : n < 10
      · simp only [h, if_pos, if_true, List.cons_append, List.nil_append, List.length_cons,
          List.length_nil]
        rw [parseDigitsAux]
        rw [if_pos (digitChar_spec n h).1]
        have : digitVal (digitChar n) = n := (digitChar_spec n h).2
        rw [this]
        norm_num
      · simp only [h, if_neg, if_false, List.append_assoc, List.cons_append,
          List.nil_append, List.length_append, List.length_cons, List.length_nil]
        rw [ih (n / 10) (by omega)]
        rw [parseDigitsAux]
        rw [if_pos (digitChar_spec (n % 10) (by omega)).1]
        rw [(digitChar_spec (n % 10) (by omega)).2]
        have heq : (acc * 10 ^ (natToDecimal (n / 10)).length + n / 10) * 10 + n % 10 =
            acc * 10 ^ ((natToDecimal (n / 10)).length + 1) + n := by
          rw [pow_succ]
          have : n = 10 * (n / 10) + n % 10 := (Nat.div_add_mod n 10).symm
          ring_nf
          omega
        rw [heq]

theorem parseDigitsAux_stop (acc : Nat) (rest : List Char)
    (h : rest = [] ∨ ∃ c cs, rest = c :: cs ∧ c.isDigit = false) :
    parseDigitsAux acc rest = (acc, rest) := by
  rcases h with h | ⟨c, cs, rfl, hc⟩
  · subst h; rfl
  · rw [parseDigitsAux, if_neg (by simp [hc])]

theorem parseNatNum_natToDecimal (n : Nat) (rest : List Char)
    (h : rest = [] ∨ ∃ c cs, rest = c :: cs ∧ c.isDigit = false) :
    parseNatNum (natToDecimal n ++ rest) = some (n, rest) := by
  obtain ⟨c, cs, hcs, hdig⟩ := natToDecimal_cons n
  rw [hcs]
  rw [List.cons_append, parseNatNum, if_pos hdig, ← List.cons_append, ← hcs]
  rw [parseDigitsAux_natToDecimal n 0 rest]
  rw [parseDigitsAux_stop _ _ h]
  simp

theorem parsePaymentJson_round (p : PaymentPayload) (hp : safePayload p = true) :
    parsePaymentJson (payloadJsonChars p) = some p := by
  have hp' := hp
  simp only [safePayload, Bool.and_eq_true] at hp'
  obtain ⟨⟨⟨⟨hf, ht⟩, ha⟩, hn⟩, hs⟩ := hp'
  have hts := parseNatNum_natToDecimal p.timestamp
      ([','] ++ (keyLit "signature" ++ (jsonQuote p.signature ++ [rbrace])))
      (Or.inr ⟨',', _, rfl, by decide⟩)
  simp only [payloadJsonChars, parsePaymentJson, dropComma, List.append_assoc]
  rw [dropLit_append]; dsimp only
  rw [parseStrField_round "from" p.fromAddr _ hf]; dsimp only
  rw [dropLit_append]; dsimp only
  rw [parseStrField_round "to" p.toAddr _ ht]; dsimp only
  rw [dropLit_append]; dsimp only
  rw [parseStrField_round "amount" p.amount _ ha]; dsimp only
  rw [dropLit_append]; dsimp only
  rw [parseStrField_round "nonce" p.nonce _ hn]; dsimp only
  rw [dropLit_append]; dsimp only
  rw [dropLit_append]; dsimp only
  rw [hts]; dsimp only
  rw [dropLit_append]; dsimp only
  rw [parseStrField_round "signature" p.signature _ hs]; dsimp only
  rfl

theorem digitChar_ascii (d : Nat) (hd : d < 10) : (digitChar d).toNat < 128 := by
  interval_cases d <;> decide

theorem natToDecimal_ascii (n : Nat) : ∀ c ∈ natToDecimal n, c.toNat < 128 := by
  induction n using Nat.strong_induction_on with
  | _ n ih =>
      intro c hc
      rw [natToDecimal_eq] at hc
      by_cases h : n < 10
      · simp [h] at hc
        subst hc
        exact digitChar_ascii n h
      · simp only [h, if_neg, if_false, List.mem_append, List.mem_singleton] at hc
        rcases hc with hc | hc
        · exact ih (n / 10) (by omega) c hc
        · subst hc
          exact digitChar_ascii (n % 10) (by omega)

theorem jsonQuote_ascii (v : String) (hv : safeStrB v = true) :
    ∀ c ∈ jsonQuote v, c.toNat < 128 := by
  have hsafe : ∀ c ∈ v.data, safeCharB c = true := by
    simpa [safeStrB, List.all_eq_true] using hv
  intro c hc
  simp only [jsonQuote, flatMap_escape_safe v.data hsafe, List.mem_cons,
    List.mem_append, List.mem_singleton] at hc
  rcases hc with (rfl | hc) | rfl | h0
  · decide
  · have := hsafe c hc
    simp only [safeCharB, Bool.and_eq_true, decide_eq_true_eq] at this
    omega
  · decide
  · simp at h0

theorem forall_toNat_append (a b : List Char)
    (ha : ∀ x ∈ a, x.toNat < 128) (hb : ∀ x ∈ b, x.toNat < 128) :
    ∀ x ∈ a ++ b, x.toNat < 128 := by
  intro x hx
  rcases List.mem_append.mp hx with h | h
  · exact ha x h
  · exact hb x h

theorem payloadJsonChars_ascii (p : PaymentPayload) (hp : safePayload p = true) :
    ∀ c ∈ payloadJsonChars p, c.toNat < 128 := by
  have hp' := hp
  simp only [safePayload, Bool.and_eq_true] at hp'
  obtain ⟨⟨⟨⟨hf, ht⟩, ha⟩, hn⟩, hs⟩ := hp'
  simp only [payloadJsonChars, List.forall_mem_append]
  repeat' apply And.intro
  all_goals
    first
      | exact jsonQuote_ascii p.fromAddr hf
      | exact jsonQuote_ascii p.toAddr ht
      | exact jsonQuote_ascii p.amount ha
      | exact jsonQuote_ascii p.nonce hn
      | exact jsonQuote_ascii p.signature hs
      | exact natToDecimal_ascii p.timestamp
      | decide

theorem utf8Encode_bytes_lt (s : String) (h : ∀ c ∈ s.data, c.toNat < 128) :
    ∀ b ∈ utf8Encode s, b < 256 := by
  intro b hb
  simp only [utf8Encode, List.mem_flatMap] at hb
  obtain ⟨c, hc, hbc⟩ := hb
  rw [charUtf8_ascii c (h c hc)] at hbc
  simp at hbc
  subst hbc
  have := h c hc
  omega

theorem decode_encode_roundtrip (p : PaymentPayload) (hp : safePayload p = true) :
    decodePaymentPayload (encodePaymentPayload p) = some p := by
  have hascii := payloadJsonChars_ascii p hp
  have hascii' : ∀ c ∈ (String.mk (payloadJsonChars p)).data, c.toNat < 128 := hascii
  have hbytes := utf8Encode_bytes_lt (String.mk (payloadJsonChars p)) hascii'
  unfold decodePaymentPayload decodePaymentPayloadT encodePaymentPayload
  have hhex : hexToU8a (hexEncodeBytes (utf8Encode (String.mk (payloadJsonChars p)))) =
      utf8Encode (String.mk (payloadJsonChars p)) := by
    unfold hexToU8a hexEncodeBytes
    exact hexPairBytes_round _ hbytes
  rw [hhex]
  have hutf : utf8Decode (utf8Encode (String.mk (payloadJsonChars p))) =
      some (payloadJsonChars p) := by
    unfold utf8Encode
    exact utf8_ascii_round _ hascii
  rw [hutf]; dsimp only
  rw [parsePaymentJson_round p hp]

theorem decode_unprefixed_roundtrip (p : PaymentPayload) (hp : safePayload p = true) :
    decodePaymentPayload
        (String.mk ((utf8Encode (String.mk (payloadJsonChars p))).flatMap byteHexChars)) =
      some p := by
  have hascii := payloadJsonChars_ascii p hp
  have hascii' : ∀ c ∈ (String.mk (payloadJsonChars p)).data, c.toNat < 128 := hascii
  have hbytes := utf8Encode_bytes_lt (String.mk (payloadJsonChars p)) hascii'
  unfold decodePaymentPayload decodePaymentPayloadT
  rw [hexToU8a_flatMap _ hbytes]
  have hutf : utf8Decode (utf8Encode (String.mk (payloadJsonChars p))) =
      some (payloadJsonChars p) := by
    unfold utf8Encode
    exact utf8_ascii_round _ hascii
  rw [hutf]; dsimp only
  rw [parsePaymentJson_round p hp]

theorem v9Fails_iff_age (nowMs : Int) (pd : PaymentPayload) (r : PaymentRequirements) :
    v9Fails nowMs pd r = true ↔ (maxTimeoutOf r : Rat) < ageSeconds nowMs pd := by
  simp only [v9Fails, decide_eq_true_eq, ageSeconds]
  rw [lt_div_iff₀ (by norm_num : (0 : Rat) < 1000)]
  rw [show ((maxTimeoutOf r : Rat) * 1000) = ((1000 * maxTimeoutOf r : Int) : Rat) by
    push_cast; ring]
  exact_mod_cast Iff.rfl

/-! ## Helper lemmas: every outcome is a result value -/

theorem v8Result_error_isSome (pd : PaymentPayload) (r : PaymentRequirements)
    (e : VerificationResult) (h : v8Result pd r = some e) : e.error.isSome = true := by
  unfold v8Result at h
  repeat' split at h
  all_goals first
    | (rw [← h]; simp [vErr])
    | (injection h with h1; rw [← h1]; simp [vErr])
    | (injection h)
    | simp_all [vErr]

theorem verify_shape (payload : String) (r : PaymentRequirements) (nowMs : Int)
    (sig : PaymentHashMsg → String → String → Bool) (bal : String → Option Int) :
    (verifyX402Payment payload r nowMs sig bal).valid = true ∨
      (verifyX402Payment payload r nowMs sig bal).error.isSome = true := by
  unfold verifyX402Payment
  repeat' split
  all_goals
    first
      | simp [vErr, v1Err, v2Err, v3Err, v4Err, v5Err, v6Err, v7Err, v9Err, v10Err,
          v11Err, verifySuccess]
      | (rename_i e heq; exact Or.inr (v8Result_error_isSome _ _ _ heq))

theorem settleExact_shape (payload : String) (req : PaymentRequirements) (env : EvmEnv) :
    (settleExactPayment payload req env).1.success = true ∨
      (settleExactPayment payload req env).1.error.isSome = true := by
  rcases h : settleExactPayment payload req env with ⟨res, txs⟩
  unfold settleExactPayment at h
  repeat' split at h
  all_goals (injection h with h1 h2; rw [← h1]; simp [sErr])

theorem appSettle_shape (payload : String) (req : PaymentRequirements) (env : EvmEnv) :
    (appSettleX402Payment payload req env).1.success = true ∨
      (appSettleX402Payment payload req env).1.error.isSome = true := by
  unfold appSettleX402Payment
  repeat' split
  all_goals first
    | simp [sErr]
    | exact settleExact_shape payload req env

theorem sdkSettle_shape (payload : String) (r : PaymentRequirements) (key : String)
    (env : SubEnv) :
    (sdkSettleX402Payment payload r key env).1.success = true ∨
      (sdkSettleX402Payment payload r key env).1.error.isSome = true := by
  rcases h : sdkSettleX402Payment payload r key env with ⟨res, txs⟩
  unfold sdkSettleX402Payment at h
  repeat' split at h
  all_goals (injection h with h1 h2; rw [← h1]; simp [sErr])

/-- C2 (amended): the application settler confirms the buyer wallet balance is
at least the transfer amount before broadcasting, failing with the
insufficient-balance error and an empty broadcast trace otherwise, and both
settlers return success only once a receipt (respectively in-block inclusion)
with a transaction hash has been obtained, never on mere broadcast; the SDK
settler performs no balance check (see the counterexample). -/
theorem settler_balance_and_receipt :
    (∀ (payload : String) (req : PaymentRequirements) (env : EvmEnv) (auth : AuthRec)
        (A : Int),
      parseSettlePayload payload = Except.ok (some auth) →
      authFieldsPresent auth req = true →
      isNativeAsset auth req = true →
      toLowerStr (jsOr auth.fromAddr "") = toLowerStr env.buyerAddress →
      env.providerAvailable = true →
      parseBigInt (jsOr auth.amount "") = some A →
      (env.balance : Int) < A →
      settleExactPayment payload req env =
        (sErr (insufficientBalanceMsg env.balance A), [])) ∧
    (∀ (payload : String) (req : PaymentRequirements) (env : EvmEnv),
      (settleExactPayment payload req env).1.success = true →
      ∃ tx resp receipt,
        (settleExactPayment payload req env).2 = [tx] ∧
          env.send tx = Except.ok resp ∧
          env.waitReceipt resp = Except.ok (some receipt) ∧
          receipt.hash ≠ "" ∧
          (settleExactPayment payload req env).1.transactionHash = some receipt.hash) ∧
    (∀ (payload : String) (r : PaymentRequirements) (key : String) (env : SubEnv),
      (sdkSettleX402Payment payload r key env).1.success = true →
      ∃ tx txHash,
        (sdkSettleX402Payment payload r key env).2 = [tx] ∧
          env.signAndSend tx = Except.ok txHash ∧
          (sdkSettleX402Payment payload r key env).1.transactionHash = some txHash) := by
  refine ⟨?_, ?_, ?_⟩
  · intro payload req env auth A hp hfields hnative haddr hprov hamt hbal
    unfold settleExactPayment
    simp [hp, hfields, hnative, haddr, hprov, hamt, hbal]
  · intro payload req env h
    rcases heq : settleExactPayment payload req env with ⟨res, txs⟩
    rw [heq] at h
    simp only [heq]
    unfold settleExactPayment at heq
    repeat' split at heq
    all_goals (injection heq with h1 h2; rw [← h1] at h; rw [← h1, ← h2])
    all_goals simp [sErr] at h ⊢
    exact ⟨_, by assumption, _, by assumption, by assumption, rfl⟩
  · intro payload r key env h
    rcases heq : sdkSettleX402Payment payload r key env with ⟨res, txs⟩
    rw [heq] at h
    simp only [heq]
    unfold sdkSettleX402Payment at heq
    repeat' split at heq
    all_goals (injection heq with h1 h2; rw [← h1] at h; rw [← h1, ← h2])
    all_goals simp [sErr] at h ⊢
    assumption



/-- C2 counterexample: the SDK settler broadcasts and reports success on a
concrete payload although the paying account's on-chain balance is zero — no
balance is confirmed and no InsufficientBalance failure is produced. -/
theorem sdk_settler_broadcasts_without_balance_check :
    (sdkSettleX402Payment
        (encodePaymentPayload
          { fromAddr := "5Buyer", toAddr := "5Seller", amount := "500", nonce := "n1",
            timestamp := 1000, signature := "0xsig" })
        { x402Version := some 1, scheme := some "exact", network := some "polkadot",
          maxAmountRequired := some "500", payTo := some "5Seller",
          maxTimeoutSeconds := some 300 }
        "0xFacilitatorKey"
        { balances := fun _ => 0, deriveAddress := fun _ => "5Facilitator",
          accountNonce := fun _ => 7, signAndSend := fun _ => Except.ok "0xhash" }) =
      ({ success := true, transactionHash := some "0xhash" },
        [⟨"5Seller", 500, "5Facilitator", 7⟩]) ∧
    getAccountBalance
        { balances := fun _ => 0, deriveAddress := fun _ => "5Facilitator",
          accountNonce := fun _ => 7, signAndSend := fun _ => Except.ok "0xhash" }
        "5Buyer" < 500 := by
  constructor
  · unfold sdkSettleX402Payment
    rw [decode_encode_roundtrip _ (by decide)]
    decide
  · decide



/-- C2 witness: concrete insufficient-balance run of the application settler,
failing with the insufficient-balance message and an empty broadcast trace. -/
theorem settler_balance_and_receipt_witness :
    settleExactPayment
        (String.mk ([lbrace] ++ keyLit "authorization" ++ [lbrace] ++
          keyLit "from" ++ jsonQuote "0xBuyer" ++ [','] ++
          keyLit "to" ++ jsonQuote "0xSeller" ++ [','] ++
          keyLit "amount" ++ jsonQuote "1000" ++ [rbrace, rbrace]))
        { x402Version := some 1, scheme := some "exact",
          network := some "polkadot-hub-testnet", asset := some "native" }
        { buyerAddress := "0xBuyer", providerAvailable := true, balance := 5,
          send := fun _ => Except.ok ⟨"0xresp"⟩,
          waitReceipt := fun _ => Except.ok (some ⟨"0xreceipt"⟩) } =
      (sErr (insufficientBalanceMsg 5 1000), []) := by
  exact settler_balance_and_receipt.1 _ _ _
    { fromAddr := some "0xBuyer", toAddr := some "0xSeller", amount := some "1000" }
    1000 (by decide) (by decide) (by decide) (by decide) (by decide) (by decide) (by decide)

/-- C10: settlement sources funds from server-side keys, not from the signed
authorization — the application settler fails without broadcasting when the
authorization sender differs case-insensitively from the server-held buyer
wallet, every application broadcast is sent by the buyer wallet, every SDK
broadcast is signed by the facilitator key, and the SDK settlement outcome
depends only on the decoded recipient and amount, never on the signature. -/
theorem settlement_funding_source :
    (∀ (payload : String) (req : PaymentRequirements) (env : EvmEnv) (auth : AuthRec),
      parseSettlePayload payload = Except.ok (some auth) →
      authFieldsPresent auth req = true →
      isNativeAsset auth req = true →
      toLowerStr (jsOr auth.fromAddr "") ≠ toLowerStr env.buyerAddress →
      settleExactPayment payload req env =
        (sErr (mismatchMsg (jsOr auth.fromAddr "") env.buyerAddress), [])) ∧
    (∀ (payload : String) (req : PaymentRequirements) (env : EvmEnv) (tx : EvmTx),
      tx ∈ (settleExactPayment payload req env).2 → tx.fromAddr = env.buyerAddress) ∧
    (∀ (payload : String) (r : PaymentRequirements) (key : String) (env : SubEnv)
        (tx : SubTx),
      tx ∈ (sdkSettleX402Payment payload r key env).2 → tx.signer = env.deriveAddress key) ∧
    (∀ (p1 p2 : String) (r : PaymentRequirements) (key : String) (env : SubEnv)
        (d1 d2 : PaymentPayload),
      decodePaymentPayload p1 = some d1 → decodePaymentPayload p2 = some d2 →
      d1.toAddr = d2.toAddr → d1.amount = d2.amount →
      sdkSettleX402Payment p1 r key env = sdkSettleX402Payment p2 r key env) := by
  refine ⟨?_, ?_, ?_, ?_⟩
  · intro payload req env auth hp hfields hnative haddr
    unfold settleExactPayment
    simp [hp, hfields, hnative, haddr]
  · intro payload req env tx htx
    rcases h : settleExactPayment payload req env with ⟨res, txs⟩
    rw [h] at htx
    unfold settleExactPayment at h
    repeat' split at h
    all_goals (injection h with h1 h2; rw [← h2] at htx; simp at htx)
    all_goals (rw [htx])
  · intro payload r key env tx htx
    rcases h : sdkSettleX402Payment payload r key env with ⟨res, txs⟩
    rw [h] at htx
    unfold sdkSettleX402Payment at h
    repeat' split at h
    all_goals (injection h with h1 h2; rw [← h2] at htx; simp at htx)
    all_goals (rw [htx])
  · intro p1 p2 r key env d1 d2 h1 h2 hto hamt
    unfold sdkSettleX402Payment
    rw [h1, h2]
    dsimp only
    rw [hto, hamt]



/-- C10 witness: concrete mismatched-sender run of the application settler,
failing with the address-mismatch message and an empty broadcast trace. -/
theorem settlement_funding_source_witness :
    settleExactPayment
        (String.mk ([lbrace] ++ keyLit "authorization" ++ [lbrace] ++
          keyLit "from" ++ jsonQuote "0xEve" ++ [','] ++
          keyLit "to" ++ jsonQuote "0xSeller" ++ [','] ++
          keyLit "amount" ++ jsonQuote "1000" ++ [rbrace, rbrace]))
        { x402Version := some 1, scheme := some "exact",
          network := some "polkadot-hub-testnet", asset := some "native" }
        { buyerAddress := "0xBuyer", providerAvailable := true, balance := 2000,
          send := fun _ => Except.ok ⟨"0xresp"⟩,
          waitReceipt := fun _ => Except.ok (some ⟨"0xreceipt"⟩) } =
      (sErr (mismatchMsg "0xEve" "0xBuyer"), []) := by
  exact settlement_funding_source.1 _ _ _
    { fromAddr := some "0xEve", toAddr := some "0xSeller", amount := some "1000" }
    (by decide) (by decide) (by decide) (by decide)

/-- C5: with every other verification gate passing, verification succeeds iff
the decoded amount, parsed as an arbitrary-precision integer, is at least the
required amount; a smaller amount yields the insufficient-amount error. -/
theorem amount_monotonicity (payload : String) (r : PaymentRequirements) (nowMs : Int)
    (sig : PaymentHashMsg → String → String → Bool) (bal : String → Option Int)
    (pd : PaymentPayload) (reqStr : String) (A R : Int)
    (h1 : v1Fails r = false) (h2 : v2Fails r = false) (h3 : v3Fails r = false)
    (h4 : v4Fails r = false)
    (hdec : decodePaymentPayload payload = some pd)
    (h6 : v6Fails pd = false) (h7 : v7Fails pd r = false)
    (hreq : r.maxAmountRequired = some reqStr) (hne : reqStr ≠ "")
    (hA : parseBigInt pd.amount = some A) (hR : parseBigInt reqStr = some R)
    (h9 : v9Fails nowMs pd r = false) (h10 : v10Fails sig pd r = false)
    (h11 : v11Fails bal pd = false) :
    ((verifyX402Payment payload r nowMs sig bal).valid = true ↔ R ≤ A) ∧
      (A < R →
        verifyX402Payment payload r nowMs sig bal =
          vErr ("Payment amount " ++ pd.amount ++ " is less than required " ++ reqStr)) := by
  have hjsor : jsOr r.maxAmountRequired "" = reqStr := by simp [jsOr, hreq, hne]
  have htr : truthy r.maxAmountRequired = true := by simp [truthy, hreq, hne]
  have hv8 : v8Result pd r =
      (if A < R then
        some (vErr ("Payment amount " ++ pd.amount ++ " is less than required " ++ reqStr))
      else none) := by
    unfold v8Result
    rw [if_pos htr, hA, hjsor, hR]
  unfold verifyX402Payment
  rw [h1, h2, h3, h4]
  simp only [Bool.false_eq_true, if_false]
  rw [hdec]
  dsimp only
  rw [h6, h7]
  simp only [Bool.false_eq_true, if_false]
  rw [hv8]
  by_cases hAR : A < R
  · rw [if_pos hAR]
    dsimp only
    constructor
    · constructor
      · intro hvalid
        simp [vErr] at hvalid
      · intro hRA
        omega
    · intro _
      rfl
  · rw [if_neg hAR]
    dsimp only
    rw [h9, h10, h11]
    simp only [Bool.false_eq_true, if_false]
    constructor
    · simp [verifySuccess]
      omega
    · intro hlt
      omega



/-- C5 witness: boundary instances above the 53-bit range — an amount equal
to the 10^19 requirement verifies, one smallest-unit less fails with the
insufficient-amount error. -/
theorem amount_monotonicity_witness :
    (verifyX402Payment
        (encodePaymentPayload
          { fromAddr := "0xBuyer", toAddr := "0xSeller",
            amount := "10000000000000000000", nonce := "n1", timestamp := 1000,
            signature := "0xsig" })
        { x402Version := some 1, scheme := some "exact", network := some "polkadot",
          maxAmountRequired := some "10000000000000000000", payTo := some "0xSeller",
          maxTimeoutSeconds := some 300 }
        1000 (fun _ _ _ => true) (fun _ => none)).valid = true ∧
    verifyX402Payment
        (encodePaymentPayload
          { fromAddr := "0xBuyer", toAddr := "0xSeller",
            amount := "9999999999999999999", nonce := "n1", timestamp := 1000,
            signature := "0xsig" })
        { x402Version := some 1, scheme := some "exact", network := some "polkadot",
          maxAmountRequired := some "10000000000000000000", payTo := some "0xSeller",
          maxTimeoutSeconds := some 300 }
        1000 (fun _ _ _ => true) (fun _ => none) =
      vErr ("Payment amount 9999999999999999999 is less than required 10000000000000000000") := by
  constructor
  · exact (amount_monotonicity _ _ 1000 _ _ _ "10000000000000000000"
      10000000000000000000 10000000000000000000
      (by decide) (by decide) (by decide) (by decide)
      (decode_encode_roundtrip _ (by decide))
      (by decide) (by decide) rfl (by decide) (by decide) (by decide)
      (by decide) (by decide) (by decide)).1.mpr (by omega)
  · exact (amount_monotonicity _ _ 1000 _ _ _ "10000000000000000000"
      9999999999999999999 10000000000000000000
      (by decide) (by decide) (by decide) (by decide)
      (decode_encode_roundtrip _ (by decide))
      (by decide) (by decide) rfl (by decide) (by decide) (by decide)
      (by decide) (by decide) (by decide)).2 (by omega)

/-- C6: with every other verification gate passing, a payload exactly
maxTimeoutSeconds old passes the freshness gate (inclusive boundary), one
second older fails with the authorization-expired error, and the timeout
defaults to 300 when absent. -/
theorem timeout_boundary (payload : String) (r : PaymentRequirements) (nowMs : Int)
    (sig : PaymentHashMsg → String → String → Bool) (bal : String → Option Int)
    (pd : PaymentPayload)
    (h1 : v1Fails r = false) (h2 : v2Fails r = false) (h3 : v3Fails r = false)
    (h4 : v4Fails r = false)
    (hdec : decodePaymentPayload payload = some pd)
    (h6 : v6Fails pd = false) (h7 : v7Fails pd r = false)
    (h8 : v8Result pd r = none)
    (h10 : v10Fails sig pd r = false) (h11 : v11Fails bal pd = false) :
    (nowMs - pd.timestamp = 1000 * maxTimeoutOf r →
        verifyX402Payment payload r nowMs sig bal = verifySuccess pd r) ∧
      (nowMs - pd.timestamp = 1000 * (maxTimeoutOf r + 1) →
        verifyX402Payment payload r nowMs sig bal = v9Err nowMs pd r) ∧
      (r.maxTimeoutSeconds = none → maxTimeoutOf r = 300) := by
  refine ⟨?_, ?_, ?_⟩
  · intro hb
    have h9 : v9Fails nowMs pd r = false := by
      simp only [v9Fails, hb, decide_eq_false_iff_not]
      omega
    unfold verifyX402Payment
    rw [h1, h2, h3, h4]
    simp only [Bool.false_eq_true, if_false]
    rw [hdec]
    dsimp only
    rw [h6, h7]
    simp only [Bool.false_eq_true, if_false]
    rw [h8]
    dsimp only
    rw [h9, h10, h11]
    simp only [Bool.false_eq_true, if_false]
  · intro hb
    have h9 : v9Fails nowMs pd r = true := by
      simp only [v9Fails, hb, decide_eq_true_eq]
      omega
    unfold verifyX402Payment
    rw [h1, h2, h3, h4]
    simp only [Bool.false_eq_true, if_false]
    rw [hdec]
    dsimp only
    rw [h6, h7]
    simp only [Bool.false_eq_true, if_false]
    rw [h8]
    dsimp only
    rw [h9]
    simp only [if_true]
  · intro hnone
    simp [maxTimeoutOf, jsOrNum, hnone]

/-- C6 witness: with the 300-second default, a payload exactly 300 seconds
old verifies and one 301 seconds old fails with the expired error. -/
theorem timeout_boundary_witness :
    verifyX402Payment
        (encodePaymentPayload
          { fromAddr := "0xBuyer", toAddr := "0xSeller", amount := "5", nonce := "n1",
            timestamp := 0, signature := "0xsig" })
        { x402Version := some 1, scheme := some "exact", network := some "polkadot",
          maxAmountRequired := some "5", payTo := some "0xSeller" }
        300000 (fun _ _ _ => true) (fun _ => none) =
      verifySuccess
        { fromAddr := "0xBuyer", toAddr := "0xSeller", amount := "5", nonce := "n1",
          timestamp := 0, signature := "0xsig" }
        { x402Version := some 1, scheme := some "exact", network := some "polkadot",
          maxAmountRequired := some "5", payTo := some "0xSeller" } ∧
    verifyX402Payment
        (encodePaymentPayload
          { fromAddr := "0xBuyer", toAddr := "0xSeller", amount := "5", nonce := "n1",
            timestamp := 0, signature := "0xsig" })
        { x402Version := some 1, scheme := some "exact", network := some "polkadot",
          maxAmountRequired := some "5", payTo := some "0xSeller" }
        301000 (fun _ _ _ => true) (fun _ => none) =
      v9Err 301000
        { fromAddr := "0xBuyer", toAddr := "0xSeller", amount := "5", nonce := "n1",
          timestamp := 0, signature := "0xsig" }
        { x402Version := some 1, scheme := some "exact", network := some "polkadot",
          maxAmountRequired := some "5", payTo := some "0xSeller" } ∧
    maxTimeoutOf
        { x402Version := some 1, scheme := some "exact", network := some "polkadot",
          maxAmountRequired := some "5", payTo := some "0xSeller" } = 300 := by
  refine ⟨?_, ?_, ?_⟩
  · exact (timeout_boundary _ _ 300000 _ _ _
      (by decide) (by decide) (by decide) (by decide)
      (decode_encode_roundtrip _ (by decide))
      (by decide) (by decide) (by decide) (by decide) (by decide)).1 (by decide)
  · exact (timeout_boundary _ _ 301000 _ _ _
      (by decide) (by decide) (by decide) (by decide)
      (decode_encode_roundtrip _ (by decide))
      (by decide) (by decide) (by decide) (by decide) (by decide)).2.1 (by decide)
  · exact (timeout_boundary _ _ 0 (fun _ _ _ => true) (fun _ => none) _
      (by decide) (by decide) (by decide) (by decide)
      (decode_encode_roundtrip
        { fromAddr := "0xBuyer", toAddr := "0xSeller", amount := "5", nonce := "n1",
          timestamp := 0, signature := "0xsig" } (by decide))
      (by decide) (by decide) (by decide) (by decide) (by decide)).2.2 rfl

theorem mwSettlePhase_outcomes (pathname : String) (cfg : RouteConfig) (env : MwEnv)
    (verification : VerifyResp) (settlement : SettleResp)
    (hse : headerValueOk (jsOr settlement.error "Settlement failed") = true)
    (htx : ∀ h, settlement.transactionHash = some h → headerValueOk h = true) :
    (∃ b eh, (mwSettlePhase pathname cfg env verification settlement).1 =
        MwOutcome.pay402 b eh) ∨
    (∃ hs, (mwSettlePhase pathname cfg env verification settlement).1 =
        MwOutcome.forward hs) := by
  unfold mwSettlePhase
  by_cases hsuc : settlement.success = true
  · rw [if_neg (by simp [hsuc])]
    rcases htxc : settlement.transactionHash with _ | h
    · right; exact ⟨_, rfl⟩
    · dsimp only
      rw [if_pos (htx h htxc)]
      right; exact ⟨_, rfl⟩
  · rw [if_pos hsuc, if_pos hse]
    left; exact ⟨_, _, rfl⟩

/-- C3: for a protected path with a payment header, a failed verification
yields exactly the 402 outcome with the verification error embedded in the
body and header, and the settle endpoint is never invoked (flag false); and
for every request whose verifier and settler responses are well-formed
(decimal-integer amounts, header-legal error and transaction-hash strings),
the middleware ends in exactly one outcome, a 402 or a forward. -/
theorem gateway_terminal_outcomes :
    (∀ (pathname : String) (cfg : RouteConfig) (env : MwEnv)
        (x : String × PaymentRequirements) (verification : VerifyResp)
        (settlement : SettleResp),
      verification.valid = false →
      middleware true pathname cfg env (some x) verification settlement =
        (MwOutcome.pay402
          { error := some "Payment verification failed",
            details := some (sanitizeError (jsOr verification.error "Invalid payment")),
            maxAmountRequired := cfg.amount, resource := pathname,
            payTo := env.sellerAddress, asset := jsOr cfg.token env.tokenAddress,
            network := env.network }
          (some (sanitizeError (jsOr verification.error "Invalid payment"))), false)) ∧
    (∀ (protectedRoute : Bool) (pathname : String) (cfg : RouteConfig)
        (env : MwEnv) (extracted : Option (String × PaymentRequirements))
        (verification : VerifyResp) (settlement : SettleResp),
      (∀ d, verification.details = some d →
        (parseBigInt (jsOr d.amount "0")).isSome = true ∧
          (parseBigInt cfg.amount).isSome = true) →
      headerValueOk (jsOr settlement.error "Settlement failed") = true →
      (∀ h, settlement.transactionHash = some h → headerValueOk h = true) →
      (∃ b eh,
        (middleware protectedRoute pathname cfg env extracted verification settlement).1 =
          MwOutcome.pay402 b eh) ∨
      (∃ hs,
        (middleware protectedRoute pathname cfg env extracted verification settlement).1 =
          MwOutcome.forward hs)) := by
  constructor
  · intro pathname cfg env x verification settlement hv
    unfold middleware
    simp [hv]
  · intro protectedRoute pathname cfg env extracted verification settlement hwf hse htx
    unfold middleware
    repeat' split
    all_goals first
      | (left; exact ⟨_, _, rfl⟩)
      | (right; exact ⟨_, rfl⟩)
      | (exact mwSettlePhase_outcomes _ _ _ _ _ hse htx)
      | skip
    all_goals rename_i d hd v1 v2 hcontra
    all_goals rcases hwf d hd with ⟨hp1, hp2⟩
    all_goals
      rcases h1 : parseBigInt (jsOr d.amount "0") with _ | pa <;>
        rcases h2 : parseBigInt cfg.amount with _ | pr <;>
        rw [h1] at hp1 <;> rw [h2] at hp2 <;> simp at hp1 hp2
    all_goals exact absurd (hcontra pa pr h1 h2) (by simp)

/-- C3 witness: a stale-payload verification failure produces the single 402
with the expired error embedded and no settle call. -/
theorem gateway_terminal_outcomes_witness :
    middleware true "/api/protected/weather"
        { amount := "1000000000000000000" }
        { network := "polkadot-hub-testnet", sellerAddress := "0xSeller",
          tokenAddress := "native" }
        (some ("0xpayload",
          { x402Version := some 1, scheme := some "exact",
            network := some "polkadot-hub-testnet" }))
        { valid := false, error := some "Payment timestamp is too old. Age: 301s, max: 300s" }
        { success := false } =
      (MwOutcome.pay402
        { error := some "Payment verification failed",
          details := some "Payment timestamp is too old. Age: 301s, max: 300s",
          maxAmountRequired := "1000000000000000000",
          resource := "/api/protected/weather", payTo := "0xSeller", asset := "native",
          network := "polkadot-hub-testnet" }
        (some "Payment timestamp is too old. Age: 301s, max: 300s"), false) ∧
    ((∃ b eh,
        (middleware true "/api/protected/weather"
          { amount := "1000000000000000000" }
          { network := "polkadot-hub-testnet", sellerAddress := "0xSeller",
            tokenAddress := "native" }
          (some ("0xpayload",
            { x402Version := some 1, scheme := some "exact",
              network := some "polkadot-hub-testnet" }))
          { valid := false,
            error := some "Payment timestamp is too old. Age: 301s, max: 300s" }
          { success := false }).1 = MwOutcome.pay402 b eh) ∨
      (∃ hs,
        (middleware true "/api/protected/weather"
          { amount := "1000000000000000000" }
          { network := "polkadot-hub-testnet", sellerAddress := "0xSeller",
            tokenAddress := "native" }
          (some ("0xpayload",
            { x402Version := some 1, scheme := some "exact",
              network := some "polkadot-hub-testnet" }))
          { valid := false,
            error := some "Payment timestamp is too old. Age: 301s, max: 300s" }
          { success := false }).1 = MwOutcome.forward hs)) := by
  constructor
  · have h := gateway_terminal_outcomes.1 "/api/protected/weather"
      { amount := "1000000000000000000" }
      { network := "polkadot-hub-testnet", sellerAddress := "0xSeller",
        tokenAddress := "native" }
      ("0xpayload",
        { x402Version := some 1, scheme := some "exact",
          network := some "polkadot-hub-testnet" })
      { valid := false, error := some "Payment timestamp is too old. Age: 301s, max: 300s" }
      { success := false } rfl
    rw [h]
    decide
  · exact gateway_terminal_outcomes.2 true "/api/protected/weather" _ _ _ _ _
      (by intro d hd; exact Option.noConfusion hd) (by decide)
      (by intro h hh; exact Option.noConfusion hh)

set_option maxRecDepth 10000 in
/-- C9 counterexample: a single-line settlement error of more than 200
characters is embedded verbatim in the 402 body and `X-402-Error` header,
unequal to its sanitized (200-capped) form — settlement errors are not
sanitized; and a settlement error containing a newline is not sanitized
either: the response-header construction throws and the request crashes. -/
theorem settlement_error_embedded_raw :
    middleware true "/api/protected/weather"
        { amount := "1000000000000000000" }
        { network := "polkadot-hub-testnet", sellerAddress := "0xSeller",
          tokenAddress := "native" }
        (some ("0xpayload",
          { x402Version := some 1, scheme := some "exact",
            network := some "polkadot-hub-testnet" }))
        { valid := true }
        { success := false,
          error := some ("RPC failure: " ++ String.mk (List.replicate 200 'x')) } =
      (MwOutcome.pay402
        { error := some "Payment settlement failed",
          details := some ("RPC failure: " ++ String.mk (List.replicate 200 'x')),
          maxAmountRequired := "1000000000000000000",
          resource := "/api/protected/weather", payTo := "0xSeller", asset := "native",
          network := "polkadot-hub-testnet" }
        (some ("RPC failure: " ++ String.mk (List.replicate 200 'x'))), true) ∧
    sanitizeError ("RPC failure: " ++ String.mk (List.replicate 200 'x')) ≠
      ("RPC failure: " ++ String.mk (List.replicate 200 'x')) ∧
    middleware true "/api/protected/weather"
        { amount := "1000000000000000000" }
        { network := "polkadot-hub-testnet", sellerAddress := "0xSeller",
          tokenAddress := "native" }
        (some ("0xpayload",
          { x402Version := some 1, scheme := some "exact",
            network := some "polkadot-hub-testnet" }))
        { valid := true }
        { success := false,
          error := some ("RPC failure:" ++ String.singleton '\n' ++ "node down") } =
      (MwOutcome.crash "TypeError: invalid header value", true) := by
  refine ⟨?_, ?_, ?_⟩
  · decide
  · decide
  · decide

/-- C9 (amended): verification errors are sanitized (newlines to spaces,
200-character cap) before inclusion in the 402 body and header; settlement
errors are never sanitized — a header-legal settlement error is embedded in
the 402 body raw and in the `X-402-Error` header unmodified up to header
normalization, with no length cap, while a settlement error that is not a
legal header value crashes the response construction instead of being
sanitized; and the sanitizer indeed strips newlines and caps length. -/
theorem error_sanitization_policy :
    (∀ (pathname : String) (cfg : RouteConfig) (env : MwEnv)
        (x : String × PaymentRequirements) (verification : VerifyResp)
        (settlement : SettleResp),
      verification.valid = false →
      middleware true pathname cfg env (some x) verification settlement =
        (MwOutcome.pay402
          { error := some "Payment verification failed",
            details := some (sanitizeError (jsOr verification.error "Invalid payment")),
            maxAmountRequired := cfg.amount, resource := pathname,
            payTo := env.sellerAddress, asset := jsOr cfg.token env.tokenAddress,
            network := env.network }
          (some (sanitizeError (jsOr verification.error "Invalid payment"))), false)) ∧
    (∀ (pathname : String) (cfg : RouteConfig) (env : MwEnv)
        (x : String × PaymentRequirements) (verification : VerifyResp)
        (settlement : SettleResp),
      verification.valid = true → verification.details = none →
      settlement.success = false →
      headerValueOk (jsOr settlement.error "Settlement failed") = true →
      middleware true pathname cfg env (some x) verification settlement =
        (MwOutcome.pay402
          { error := some "Payment settlement failed", details := settlement.error,
            maxAmountRequired := cfg.amount, resource := pathname,
            payTo := env.sellerAddress, asset := jsOr cfg.token env.tokenAddress,
            network := env.network }
          (some (normalizeHeaderValue (jsOr settlement.error "Settlement failed"))),
          true)) ∧
    (∀ (pathname : String) (cfg : RouteConfig) (env : MwEnv)
        (x : String × PaymentRequirements) (verification : VerifyResp)
        (settlement : SettleResp),
      verification.valid = true → verification.details = none →
      settlement.success = false →
      headerValueOk (jsOr settlement.error "Settlement failed") = false →
      middleware true pathname cfg env (some x) verification settlement =
        (MwOutcome.crash "TypeError: invalid header value", true)) ∧
    (∀ s : String,
      (∀ c ∈ (sanitizeError s).data, c ≠ '\n') ∧ (sanitizeError s).data.length ≤ 200) := by
  refine ⟨?_, ?_, ?_, ?_⟩
  · intro pathname cfg env x verification settlement hv
    unfold middleware
    simp [hv]
  · intro pathname cfg env x verification settlement hv hd hs hok
    unfold middleware mwSettlePhase
    simp [hv, hd, hs, hok]
  · intro pathname cfg env x verification settlement hv hd hs hok
    unfold middleware mwSettlePhase
    simp [hv, hd, hs, hok]
  · intro s
    constructor
    · intro c hc
      simp only [sanitizeError] at hc
      have hc2 := List.take_subset 200 _ hc
      rcases List.mem_map.mp hc2 with ⟨c0, _, hmap⟩
      by_cases h0 : c0 = '\n'
      · rw [← hmap, if_pos h0]; decide
      · rw [← hmap, if_neg h0]; exact h0
    · simp only [sanitizeError]
      exact List.length_take_le 200 ((s.data.map (fun c => if c = '\n' then ' ' else c)))



/-- C9 witness: concrete sanitized verification-error 402, raw
settlement-error 402, and a newline-bearing settlement error crashing the
response construction. -/
theorem error_sanitization_policy_witness :
    middleware true "/api/protected/weather"
        { amount := "5" }
        { network := "polkadot-hub-testnet", sellerAddress := "0xSeller",
          tokenAddress := "native" }
        (some ("0xpayload",
          { x402Version := some 1, scheme := some "exact",
            network := some "polkadot-hub-testnet" }))
        { valid := false, error := some "boom" }
        { success := true } =
      (MwOutcome.pay402
        { error := some "Payment verification failed", details := some "boom",
          maxAmountRequired := "5", resource := "/api/protected/weather",
          payTo := "0xSeller", asset := "native", network := "polkadot-hub-testnet" }
        (some "boom"), false) ∧
    middleware true "/api/protected/weather"
        { amount := "5" }
        { network := "polkadot-hub-testnet", sellerAddress := "0xSeller",
          tokenAddress := "native" }
        (some ("0xpayload",
          { x402Version := some 1, scheme := some "exact",
            network := some "polkadot-hub-testnet" }))
        { valid := true }
        { success := false, error := some "node down" } =
      (MwOutcome.pay402
        { error := some "Payment settlement failed", details := some "node down",
          maxAmountRequired := "5", resource := "/api/protected/weather",
          payTo := "0xSeller", asset := "native", network := "polkadot-hub-testnet" }
        (some "node down"), true) ∧
    middleware true "/api/protected/weather"
        { amount := "5" }
        { network := "polkadot-hub-testnet", sellerAddress := "0xSeller",
          tokenAddress := "native" }
        (some ("0xpayload",
          { x402Version := some 1, scheme := some "exact",
            network := some "polkadot-hub-testnet" }))
        { valid := true }
        { success := false, error := some ("node" ++ String.singleton '\n' ++ "down") } =
      (MwOutcome.crash "TypeError: invalid header value", true) := by
  refine ⟨?_, ?_, ?_⟩
  · have h := error_sanitization_policy.1 "/api/protected/weather"
      { amount := "5" }
      { network := "polkadot-hub-testnet", sellerAddress := "0xSeller",
        tokenAddress := "native" }
      ("0xpayload",
        { x402Version := some 1, scheme := some "exact",
          network := some "polkadot-hub-testnet" })
      { valid := false, error := some "boom" } { success := true } rfl
    rw [h]
    decide
  · have h := error_sanitization_policy.2.1 "/api/protected/weather"
      { amount := "5" }
      { network := "polkadot-hub-testnet", sellerAddress := "0xSeller",
        tokenAddress := "native" }
      ("0xpayload",
        { x402Version := some 1, scheme := some "exact",
          network := some "polkadot-hub-testnet" })
      { valid := true } { success := false, error := some "node down" } rfl rfl rfl
      (by decide)
    rw [h]
    decide
  · have h := error_sanitization_policy.2.2.1 "/api/protected/weather"
      { amount := "5" }
      { network := "polkadot-hub-testnet", sellerAddress := "0xSeller",
        tokenAddress := "native" }
      ("0xpayload",
        { x402Version := some 1, scheme := some "exact",
          network := some "polkadot-hub-testnet" })
      { valid := true }
      { success := false, error := some ("node" ++ String.singleton '\n' ++ "down") }
      rfl rfl rfl (by decide)
    rw [h]


/-- C1 counterexample: an identifier that is a key of neither registry still
resolves in the application registry — it falls back to the hub config
instead of failing with an error listing the supported set. -/
theorem evm_registry_unknown_identifier_resolves :
    Evm.getNetworkConfig "no-such-network" = Except.ok Evm.hubTestnetConfig ∧
      "no-such-network" ∉ Evm.STANDARD_NETWORKS.map Prod.fst ∧
      "no-such-network" ∉ Sdk.POLKADOT_NETWORKS.map Prod.fst := by
  refine ⟨rfl, ?_, ?_⟩ <;> decide

/-- C1 (amended): the SDK registry resolves exact keys, then a
case-insensitive match, and otherwise fails with the error listing the
supported identifiers; the application registry never fails and returns the
hub config for every identifier. -/
theorem network_registry_resolution :
    (∀ id cfg, Sdk.POLKADOT_NETWORKS.lookup id = some cfg →
        Sdk.getNetworkConfig id = Except.ok cfg) ∧
    (∀ id e, Sdk.POLKADOT_NETWORKS.lookup id = none →
        Sdk.POLKADOT_NETWORKS.find? (fun x => toLowerStr x.1 = toLowerStr id) = some e →
        Sdk.getNetworkConfig id = Except.ok e.2) ∧
    (∀ id, Sdk.POLKADOT_NETWORKS.lookup id = none →
        Sdk.POLKADOT_NETWORKS.find? (fun x => toLowerStr x.1 = toLowerStr id) = none →
        Sdk.getNetworkConfig id = Except.error (Sdk.unsupportedNetworkMsg id)) ∧
    (∀ id, Evm.getNetworkConfig id = Except.ok Evm.hubTestnetConfig) := by
  refine ⟨?_, ?_, ?_, ?_⟩
  · intro id cfg h
    simp [Sdk.getNetworkConfig, h]
  · intro id e h1 h2
    simp [Sdk.getNetworkConfig, h1, h2]
  · intro id h1 h2
    simp [Sdk.getNetworkConfig, h1, h2]
  · intro id
    by_cases h : id = "polkadot-hub-testnet" <;>
      simp [Evm.getNetworkConfig, Evm.STANDARD_NETWORKS, h]

/-- C1 witness: exact, case-insensitive, unknown and application-registry
instances. -/
theorem network_registry_resolution_witness :
    Sdk.getNetworkConfig "kusama" =
        Except.ok (Sdk.POLKADOT_NETWORKS.get ⟨1, by decide⟩).2 ∧
      Sdk.getNetworkConfig "KUSAMA" =
        Except.ok (Sdk.POLKADOT_NETWORKS.get ⟨1, by decide⟩).2 ∧
      Sdk.getNetworkConfig "acala" = Except.error (Sdk.unsupportedNetworkMsg "acala") ∧
      Evm.getNetworkConfig "acala" = Except.ok Evm.hubTestnetConfig := by
  refine ⟨?_, ?_, ?_, ?_⟩
  · exact network_registry_resolution.1 "kusama" _ (by decide)
  · exact network_registry_resolution.2.1 "KUSAMA" _ (by decide) (by decide)
  · exact network_registry_resolution.2.2.1 "acala" (by decide) (by decide)
  · exact network_registry_resolution.2.2.2 "acala"

theorem evm_getNetworkConfig_ok (id : String) :
    ∃ c, Evm.getNetworkConfig id = Except.ok c := by
  by_cases h : id = "polkadot-hub-testnet"
  · subst h
    exact ⟨_, rfl⟩
  · refine ⟨Evm.hubTestnetConfig, ?_⟩
    unfold Evm.getNetworkConfig
    rw [if_neg h]
    rfl

/-- C4 counterexample: with every requirements gate passing and an
unsupported scheme, the application verifier reports the payload-format
error for a non-hex payload — the scheme unsupported error would fire only
after the payload checks, contradicting the claimed order; and on success
its details amount comes from the requirements, identically for two
different payloads. -/
theorem app_verifier_contradicts_gate_order :
    appVerifyX402Payment (fun _ _ => Except.error "unreachable") "nothex"
        { x402Version := some 1, scheme := some "signature-based",
          network := some "polkadot-hub-testnet" } =
      appVErr "Payload must be a hex string starting with 0x" ∧
    appVerifyX402Payment (fun _ _ => Except.ok { isValid := true })
        (String.mk ('0' :: 'x' :: List.replicate 64 'a'))
        { x402Version := some 1, scheme := some "exact",
          network := some "polkadot-hub-testnet",
          maxAmountRequired := some "7777", asset := some "TOK",
          payTo := some "0xSeller" } =
      { valid := true,
        details := some
          { amount := "7777", token := "TOK", fromAddr := "",
            toAddr := "0xSeller" } } ∧
    appVerifyX402Payment (fun _ _ => Except.ok { isValid := true })
        (String.mk ('0' :: 'x' :: List.replicate 64 'b'))
        { x402Version := some 1, scheme := some "exact",
          network := some "polkadot-hub-testnet",
          maxAmountRequired := some "7777", asset := some "TOK",
          payTo := some "0xSeller" } =
      { valid := true,
        details := some
          { amount := "7777", token := "TOK", fromAddr := "",
            toAddr := "0xSeller" } } := by
  refine ⟨?_, ?_, ?_⟩ <;> decide

theorem sdk_verify_refines (payload : String) (r : PaymentRequirements)
    (nowMs : Int) (sigValid : PaymentHashMsg → String → String → Bool)
    (queryBalance : String → Option Int) :
    verifyX402Payment payload r nowMs sigValid queryBalance =
      (firstFailure (verifyGates payload r nowMs sigValid queryBalance)).getD
        (verifySuccess (pdOf payload) r) := by
  by_cases h1 : v1Fails r
  · simp [verifyX402Payment, verifyGates, firstFailure, h1]
  · by_cases h2 : v2Fails r
    · simp [verifyX402Payment, verifyGates, firstFailure, h1, h2]
    · by_cases h3 : v3Fails r
      · simp [verifyX402Payment, verifyGates, firstFailure, h1, h2, h3]
      · by_cases h4 : v4Fails r
        · simp [verifyX402Payment, verifyGates, firstFailure, h1, h2, h3, h4]
        · cases hd : decodePaymentPayload payload with
          | none =>
              simp [verifyX402Payment, verifyGates, firstFailure, h1, h2, h3, h4, v5Fails, hd]
          | some pd =>
              have hpd : pdOf payload = pd := by simp [pdOf, hd]
              have h5 : v5Fails payload = false := by simp [v5Fails, hd]
              by_cases h6 : v6Fails pd
              · simp [verifyX402Payment, verifyGates, firstFailure, h1, h2, h3, h4, h5, hpd,
                  hd, h6]
              · by_cases h7 : v7Fails pd r
                · simp [verifyX402Payment, verifyGates, firstFailure, h1, h2, h3, h4, h5,
                    hpd, hd, h6, h7]
                · cases h8 : v8Result pd r with
                  | some e =>
                      simp [verifyX402Payment, verifyGates, firstFailure, h1, h2, h3, h4, h5,
                        hpd, hd, h6, h7, h8]
                  | none =>
                      by_cases h9 : v9Fails nowMs pd r
                      · simp [verifyX402Payment, verifyGates, firstFailure, h1, h2, h3, h4,
                          h5, hpd, hd, h6, h7, h8, h9]
                      · by_cases h10 : v10Fails sigValid pd r
                        · simp [verifyX402Payment, verifyGates, firstFailure, h1, h2, h3, h4,
                            h5, hpd, hd, h6, h7, h8, h9, h10]
                        · by_cases h11 : v11Fails queryBalance pd
                          · simp [verifyX402Payment, verifyGates, firstFailure, h1, h2, h3,
                              h4, h5, hpd, hd, h6, h7, h8, h9, h10, h11]
                          · simp [verifyX402Payment, verifyGates, firstFailure, h1, h2, h3,
                              h4, h5, hpd, hd, h6, h7, h8, h9, h10, h11]

/-- C4 (amended): the SDK verifier equals the first-failure semantics of its
ordered gate list — requirements structure, version, scheme, network
resolution, payload decode, field presence, recipient match, amount
sufficiency, timestamp freshness, signature verification, optional balance
check — returning the first failing gate's error, or the success details
record when no gate fails.  The application verifier deviates from that
order: its scheme-exact dispatch sits after the payload-format checks, so
with the requirements gates passing, a payload without the hex prefix is
reported before any unsupported scheme; and its success details take amount
and token from the external verify result or the requirements, never from
the payload. -/
theorem verify_refines_ordered_gates :
    (∀ (payload : String) (r : PaymentRequirements) (nowMs : Int)
        (sigValid : PaymentHashMsg → String → String → Bool)
        (queryBalance : String → Option Int),
      verifyX402Payment payload r nowMs sigValid queryBalance =
        (firstFailure (verifyGates payload r nowMs sigValid queryBalance)).getD
          (verifySuccess (pdOf payload) r)) ∧
    (∀ (oracle : String → PaymentRequirements → Except String XVerifyResp)
        (payload : String) (r : PaymentRequirements),
      r.x402Version = some 1 → truthy r.scheme = true → truthy r.network = true →
      payload ≠ "" → startsWithStr payload "0x" = false →
      appVerifyX402Payment oracle payload r =
        appVErr "Payload must be a hex string starting with 0x") ∧
    (∀ (oracle : String → PaymentRequirements → Except String XVerifyResp)
        (payload : String) (r : PaymentRequirements) (vr : XVerifyResp),
      r.x402Version = some 1 → r.scheme = some "exact" → truthy r.network = true →
      payload ≠ "" → startsWithStr payload "0x" = true →
      ¬ payload.length < 66 → isHexPayload payload = true →
      oracle payload r = Except.ok vr → vr.isValid = true →
      appVerifyX402Payment oracle payload r =
        { valid := true,
          details := some
            { amount := jsOr vr.detailsAmount (jsOr r.maxAmountRequired "0"),
              token := jsOr vr.detailsToken (jsOr r.asset ""),
              fromAddr := jsOr vr.payer "",
              toAddr := jsOr r.payTo "",
              nonce := vr.detailsNonce,
              timestamp := vr.detailsTimestamp } }) := by
  refine ⟨?_, ?_, ?_⟩
  · intro payload r nowMs sigValid queryBalance
    exact sdk_verify_refines payload r nowMs sigValid queryBalance
  · intro oracle payload r h1 h2 h3 h4 h5
    rcases evm_getNetworkConfig_ok (jsOr r.network "") with ⟨c, hc⟩
    unfold appVerifyX402Payment
    simp [h1, h2, h3, h4, h5, hc]
  · intro oracle payload r vr h1 h2 h3 h4 h5 h6 h7 ho hvalid
    rcases evm_getNetworkConfig_ok (jsOr r.network "") with ⟨c, hc⟩
    have h2t : truthy r.scheme = true := by simp [truthy, h2]
    have h2j : jsOr r.scheme "" = "exact" := by simp [jsOr, h2]
    unfold appVerifyX402Payment
    simp [h1, h2t, h2j, h3, h4, h5, h6, h7, hc, ho, hvalid]

/-- C4 witness: a non-hex payload with an unsupported scheme draws the
payload-format error, and a successful external verification yields the
requirements-sourced details. -/
theorem verify_refines_ordered_gates_witness :
    appVerifyX402Payment (fun _ _ => Except.error "sdk throw") "zzz"
        { x402Version := some 1, scheme := some "token-transfer",
          network := some "polkadot-hub-testnet" } =
      appVErr "Payload must be a hex string starting with 0x" ∧
    appVerifyX402Payment
        (fun _ _ => Except.ok { isValid := true, detailsAmount := some "42" })
        (String.mk ('0' :: 'x' :: List.replicate 70 'c'))
        { x402Version := some 1, scheme := some "exact",
          network := some "westend", maxAmountRequired := some "9" } =
      { valid := true,
        details := some { amount := "42", token := "", fromAddr := "", toAddr := "" } } := by
  constructor
  · exact verify_refines_ordered_gates.2.1 (fun _ _ => Except.error "sdk throw") "zzz"
      { x402Version := some 1, scheme := some "token-transfer",
        network := some "polkadot-hub-testnet" }
      rfl (by decide) (by decide) (by decide) (by decide)
  · exact verify_refines_ordered_gates.2.2
      (fun _ _ => Except.ok { isValid := true, detailsAmount := some "42" })
      (String.mk ('0' :: 'x' :: List.replicate 70 'c'))
      { x402Version := some 1, scheme := some "exact",
        network := some "westend", maxAmountRequired := some "9" }
      { isValid := true, detailsAmount := some "42" }
      rfl rfl (by decide) (by decide) (by decide) (by decide) (by decide) rfl rfl

set_option maxRecDepth 40000 in
set_option maxHeartbeats 1600000 in
/-- C7 counterexample: the base64 text framing of a concrete payload is
rejected by the decoder (the codec only decodes the hex framing), while the
hex framing round-trips. -/
theorem codec_base64_framing_fails :
    decodePaymentPayload
        (String.mk (base64EncodeBytes (utf8Encode (String.mk (payloadJsonChars
          { fromAddr := "0xBUYER", toAddr := "0xSELLER", amount := "1000",
            nonce := "n1", timestamp := 1700000000, signature := "0xSIG" }))))) = none ∧
      decodePaymentPayload (encodePaymentPayload
          { fromAddr := "0xBUYER", toAddr := "0xSELLER", amount := "1000",
            nonce := "n1", timestamp := 1700000000, signature := "0xSIG" }) =
        some { fromAddr := "0xBUYER", toAddr := "0xSELLER", amount := "1000",
               nonce := "n1", timestamp := 1700000000, signature := "0xSIG" } := by
  constructor
  · decide
  · exact decode_encode_roundtrip _ (by decide)

/-- C7 (amended): decode inverts encode field-wise for the hex transport
framing on payloads with protocol-shaped (safe ASCII) fields, and the
decoder also inverts the unprefixed form of the same transport string
(`hexToU8a` skips the `0x` prefix when present but accepts bare hex); the
codec has no base64 framing, and the base64 text of the same JSON fails to
decode. -/
theorem codec_roundtrip_hex_only :
    (∀ p : PaymentPayload, safePayload p = true →
        decodePaymentPayload (encodePaymentPayload p) = some p) ∧
    (∀ (p : PaymentPayload) (s : String), safePayload p = true →
        encodePaymentPayload p = String.mk ('0' :: 'x' :: s.data) →
        decodePaymentPayload s = some p) := by
  constructor
  · exact decode_encode_roundtrip
  · intro p s hp h
    obtain ⟨sd⟩ := s
    unfold encodePaymentPayload hexEncodeBytes at h
    have h2 := congrArg String.data h
    simp only [List.cons.injEq, true_and] at h2
    subst h2
    exact decode_unprefixed_roundtrip p hp

set_option maxRecDepth 40000 in
set_option maxHeartbeats 1600000 in
/-- C7 witness: concrete hex round-trip, prefixed and unprefixed. -/
theorem codec_roundtrip_hex_only_witness :
    decodePaymentPayload (encodePaymentPayload
        { fromAddr := "0xA", toAddr := "0xB", amount := "7", nonce := "n",
          timestamp := 5, signature := "0xS" }) =
      some { fromAddr := "0xA", toAddr := "0xB", amount := "7", nonce := "n",
             timestamp := 5, signature := "0xS" } ∧
    decodePaymentPayload
        (String.mk ((utf8Encode (String.mk (payloadJsonChars
          { fromAddr := "0xA", toAddr := "0xB", amount := "7", nonce := "n",
            timestamp := 5, signature := "0xS" }))).flatMap byteHexChars)) =
      some { fromAddr := "0xA", toAddr := "0xB", amount := "7", nonce := "n",
             timestamp := 5, signature := "0xS" } := by
  constructor
  · exact codec_roundtrip_hex_only.1 _ (by decide)
  · exact codec_roundtrip_hex_only.2 _ _ (by decide) (by decide)

/-- C8: decoding never lets an exception escape — every failure of the
decode body becomes the null result — and the verifier and both settler entry
points return a result value (success or a typed error message) for every
input. -/
theorem errors_recovered_as_results :
    (∀ s, decodePaymentPayload s = (decodePaymentPayloadT s).toOption) ∧
    (∀ payload r nowMs sig bal, (verifyX402Payment payload r nowMs sig bal).valid = true ∨
        (verifyX402Payment payload r nowMs sig bal).error.isSome = true) ∧
    (∀ payload req env, (appSettleX402Payment payload req env).1.success = true ∨
        (appSettleX402Payment payload req env).1.error.isSome = true) ∧
    (∀ payload r key env, (sdkSettleX402Payment payload r key env).1.success = true ∨
        (sdkSettleX402Payment payload r key env).1.error.isSome = true) := by
  refine ⟨?_, ?_, ?_, ?_⟩
  · intro s
    unfold decodePaymentPayload
    cases h : decodePaymentPayloadT s <;> simp [Except.toOption]
  · exact verify_shape
  · exact appSettle_shape
  · exact sdkSettle_shape

end X402
